import Mathlib

/-!
Verification of the drug-repurposing pipeline.

This file gives a shallow embedding, in Lean 4, of the parts of the
repository exercised by the frozen claims:

* `src/kg/mechanistic_repurposing.py` — the Mechanistic Repurposing Engine
  (indication filter, drug fetch normalization, per-target processing,
  cross-target ranking);
* `src/kg/scoring_engine.py` — scoring weights and the composite scorer;
* `src/kg/candidate_ranker.py` — candidate ranking;
* `src/kg/evidence_validator.py` — drug validation;
* `src/orchestrator/route_a_graph.py` — the orchestration graph;
* `src/agents/base.py` — the cache manager;
* `src/backend/app/services/run_store.py` — state persistence;
* `src/agents/exim.py` — the EXIM sourcing-signal agent.

Python floats are modelled as rationals (`ℚ`), Python strings as Lean
`String`/`List Char` (string formatting of numbers inside human-readable
narrative strings, which no claim depends on, is modelled by a simple
decimal printer).  Fallible constructors return `Except`/`Option`.
-/

/-! ## Python string helpers

Models of the Python `str` operations used by the code under scrutiny:
`str.lower()`, the `in` substring test, and whitespace `str.split()`.
-/

namespace PyStr

/-- Model of Python `str.lower()` on a character (ASCII case mapping,
which is all the repository's inputs use). -/
def lowerChar (c : Char) : Char := c.toLower

/-- Model of Python `str.lower()`. -/
def lower (s : String) : String := ⟨s.data.map lowerChar⟩

/-- Helper for the substring test: does `needle` occur as a contiguous
sublist of `hay`?  Mirrors Python `needle in hay` on strings. -/
def infixOf (needle : List Char) : List Char → Bool
  | [] => needle.isEmpty
  | c :: rest => needle.isPrefixOf (c :: rest) || infixOf needle rest

/-- Model of the Python substring test `needle in hay`. -/
def strContains (hay needle : String) : Bool :=
  infixOf needle.data hay.data

/-- Whitespace test matching Python `str.split()` with no argument. -/
def isSpace (c : Char) : Bool := c = ' ' || c = '\t' || c = '\n' || c = '\r'

/-- Model of Python `str.split()` (split on whitespace runs, no empty
tokens), on lists of characters. -/
def splitWsChars : List Char → List (List Char)
  | [] => []
  | c :: rest =>
    let groups := splitWsChars rest
    if isSpace c then groups
    else
      match rest with
      | [] => [[c]]
      | d :: _ =>
        if isSpace d then [c] :: groups
        else
          match groups with
          | [] => [[c]]
          | g :: gs => (c :: g) :: gs

/-- Model of Python `s.split()`: the whitespace-delimited word tokens of
`s`. -/
def pySplit (s : String) : List (List Char) := splitWsChars s.data

end PyStr

/-! ## Mechanistic Repurposing Engine (`src/kg/mechanistic_repurposing.py`)

Claims C1 and C4.  Network calls (the OpenTargets GraphQL POST and the
pathway integrator) are modelled by taking their decoded responses as
inputs: a target comes with the rows returned for its `knownDrugs` query
and with the pathway-overlap result computed for it.
-/

namespace MRE

/-- Test of `not indication or indication in ["Unknown indication",
"Unknown", ""]` at the top of `_drug_treats_disease`. -/
def noIndication (ind : String) : Bool :=
  ind == "" || ind == "Unknown indication" || ind == "Unknown"

/-- Count of shared word tokens of length > 3 between the lowercased
indication and the lowercased disease name (the set-intersection size
`_drug_treats_disease` computes). -/
def sharedLongTokens (indication : String) (queryDisease : String) : Nat :=
  let diseaseWords :=
    ((PyStr.pySplit (PyStr.lower queryDisease)).filter (fun w => w.length > 3)).dedup
  let indicationWords :=
    ((PyStr.pySplit (PyStr.lower indication)).filter (fun w => w.length > 3)).dedup
  (diseaseWords.filter (fun w => indicationWords.contains w)).length

/-- Embedding of `MechanisticRepurposingEngine._drug_treats_disease`
(src/kg/mechanistic_repurposing.py lines 349-375). -/
def drugTreatsDisease (indication : String) (queryDisease : String) : Bool :=
  if noIndication indication then
    false  -- mirrors: no indication = potential repurposing
  else if PyStr.strContains (PyStr.lower indication) (PyStr.lower queryDisease) then
    true
  else
    decide (sharedLongTokens indication queryDisease ≥ 2)

/-- Verbatim text of the GraphQL query sent by
`MechanisticRepurposingEngine._fetch_drugs_for_target`
(src/kg/mechanistic_repurposing.py lines 264-288).  Braces are escaped as
\x7b / \x7d. -/
def targetDrugsQuery : String :=
  "\n        query TargetDrugs($ensemblId: String!) \x7b\n" ++
  "          target(ensemblId: $ensemblId) \x7b\n" ++
  "            approvedSymbol\n" ++
  "            approvedName\n" ++
  "            knownDrugs(size: 10) \x7b\n" ++
  "              rows \x7b\n" ++
  "                drug \x7b\n" ++
  "                  id\n" ++
  "                  name\n" ++
  "                  drugType\n" ++
  "                  maximumClinicalTrialPhase\n" ++
  "                  isApproved\n" ++
  "                \x7d\n" ++
  "                disease \x7b\n" ++
  "                  id\n" ++
  "                  name\n" ++
  "                \x7d\n" ++
  "                mechanismOfAction\n" ++
  "                phase\n" ++
  "              \x7d\n" ++
  "            \x7d\n" ++
  "          \x7d\n" ++
  "        \x7d\n        "

/-- Embedding of `MechanisticRepurposingEngine._normalize_phase`
(lines 731-738): `None`/empty normalize to 0, otherwise the integer is
passed through. -/
def normalizePhase (value : Option Int) : Int :=
  match value with
  | none => 0
  | some v => v

/-- Decoded row of the `knownDrugs` GraphQL response, as read by
`_fetch_drugs_for_target` (lines 310-341). -/
structure KnownDrugRow where
  drugId : Option String
  drugName : Option String
  drugType : Option String
  maximumClinicalTrialPhase : Option Int
  isApproved : Option Bool
  diseaseId : Option String
  diseaseName : Option String
  mechanismOfAction : Option String
  rowPhase : Option Int
deriving Repr, DecidableEq

/-- Normalized drug record produced by `_fetch_drugs_for_target`. -/
structure Drug where
  id : Option String
  name : String
  drugType : String
  phase : Int
  approved : Bool
  indication : String
  indicationId : String
  mechanism : String
deriving Repr, DecidableEq

/-- Embedding of the row-processing loop of
`MechanisticRepurposingEngine._fetch_drugs_for_target` (lines 290-343):
phase normalization, `min_phase` filtering (with the Python-falsy rewrite
of `min_phase = 0` to 1) and field defaulting. -/
def fetchDrugsForTarget (rows : List KnownDrugRow) (minPhase : Int) : List Drug :=
  let minPhase := if minPhase = 0 then 1 else minPhase
  rows.filterMap (fun row =>
    let phase :=
      max (normalizePhase row.maximumClinicalTrialPhase) (normalizePhase row.rowPhase)
    if phase < minPhase then none
    else some {
      id := row.drugId
      name := row.drugName.getD "Unknown"
      drugType := row.drugType.getD "Unknown"
      phase := phase
      approved := row.isApproved.getD false
      indication := row.diseaseName.getD "Unknown indication"
      indicationId := row.diseaseId.getD ""
      mechanism := row.mechanismOfAction.getD "Unknown mechanism" })

/-- Result of `_assess_repurposing_safety` (lines 586-653). -/
structure SafetyAssessment where
  concerns : List String
  contraindications : List String
  pkConsiderations : List String
deriving Repr, DecidableEq

/-- Embedding of `MechanisticRepurposingEngine._assess_repurposing_safety`
(lines 586-653). -/
def assessRepurposingSafety (drugType : String)
    (originalIndication proposedIndication : String)
    (currentPhase : Int) : SafetyAssessment :=
  let concerns0 : List String := []
  let pk0 : List String := []
  let concerns1 :=
    if currentPhase < 2 then concerns0 ++ ["Limited safety data in humans"] else concerns0
  let pk1 :=
    if currentPhase < 2 then pk0 ++ ["Human PK/PD not well characterized"]
    else if currentPhase ≥ 4 then
      pk0 ++ ["Approved drug with known PK profile - dose may need adjustment for " ++
        proposedIndication]
    else pk0
  let originalLower := PyStr.lower originalIndication
  let proposedLower := PyStr.lower proposedIndication
  let concerns2 :=
    if PyStr.strContains proposedLower "cancer" || PyStr.strContains proposedLower "tumor" then
      let c := concerns1
      let c :=
        if PyStr.strContains originalLower "diabetes" ||
            PyStr.strContains originalLower "metabolic" then
          c ++ ["Monitor for metabolic disturbances in cancer patients"]
        else c
      if PyStr.strContains originalLower "cardiovascular" ||
          PyStr.strContains originalLower "heart" then
        c ++ ["Monitor for cardiotoxicity (may be additive with chemotherapy)"]
      else c
    else concerns1
  let contra1 :=
    if (PyStr.strContains proposedLower "cardio" || PyStr.strContains proposedLower "heart") &&
        PyStr.strContains originalLower "cancer" then
      ["Many cancer drugs are cardiotoxic - careful monitoring required"]
    else []
  let contra2 :=
    if (PyStr.strContains originalLower "immune" ||
        PyStr.strContains originalLower "autoimmune") &&
        (PyStr.strContains proposedLower "infection" ||
         PyStr.strContains proposedLower "sepsis") then
      contra1 ++ ["Immunosuppression contraindicated in infectious diseases"]
    else contra1
  let concerns3 :=
    if drugType = "Antibody" || drugType = "Protein" then
      concerns2 ++ ["Biologic drug - immunogenicity and dosing may differ for new indication"]
    else concerns2
  let pk2 :=
    if drugType = "Antibody" || drugType = "Protein" then
      pk1 ++ ["Antibody PK may vary across indications due to target expression differences"]
    else pk1
  let pk3 :=
    if drugType = "Small molecule" then
      pk2 ++ ["Small molecule with predictable PK - existing formulation may be suitable for " ++
        proposedIndication]
    else pk2
  { concerns := concerns3, contraindications := contra2, pkConsiderations := pk3 }

/-- Experimental plan of `_design_validation_experiments` (lines 528-584). -/
structure ExperimentPlan where
  inVitro : List String
  inVivo : List String
  biomarkers : List String
deriving Repr, DecidableEq

/-- Embedding of `MechanisticRepurposingEngine._design_validation_experiments`
(lines 528-584). -/
def designValidationExperiments (drugName targetSymbol disease : String)
    (phase : Int) : ExperimentPlan :=
  let inVitroBase := [
    "Cell viability assay: Treat " ++ disease ++ "-relevant cell lines with " ++ drugName ++
      " at therapeutic concentrations",
    "Mechanism validation: Measure " ++ targetSymbol ++
      " activity (Western blot, ELISA) after " ++ drugName ++ " treatment",
    "Functional assays: Assess cell proliferation, apoptosis, migration in disease models",
    "Dose-response: Determine IC50 and optimal concentration range"]
  let inVitro :=
    if phase ≥ 4 then
      inVitroBase ++ ["Combination studies: Test " ++ drugName ++
        " synergy with standard-of-care " ++ disease ++ " treatments"]
    else inVitroBase
  let inVivo :=
    if phase ≥ 2 then [
      "Animal efficacy: Test " ++ drugName ++ " in " ++ disease ++
        " xenograft or syngeneic models",
      "Pharmacodynamics: Measure " ++ targetSymbol ++ " modulation in tumor/tissue biopsies",
      "Dosing optimization: Determine optimal dose and schedule for " ++ disease ++
        " indication",
      "Survival benefit: Assess impact on disease progression and survival"]
    else [
      "Preclinical safety: Assess " ++ drugName ++
        " toxicity in relevant animal models before " ++ disease ++ " studies",
      "Proof-of-concept: Single-arm efficacy study in " ++ disease ++ " animal model"]
  let biomarkers := [
    "Phospho-" ++ targetSymbol ++ " (target engagement)",
    "Downstream pathway markers (e.g., p-S6K, p-4EBP1 if mTOR pathway)",
    disease ++ " progression biomarkers (tumor markers, imaging)",
    "Pharmacokinetic markers (drug levels in plasma/tissue)"]
  { inVitro := inVitro, inVivo := inVivo, biomarkers := biomarkers }

/-- Embedding of `_calculate_mechanistic_confidence` (lines 655-681). -/
def calculateMechanisticConfidence (pathwayOverlap targetScore : ℚ)
    (phase : Int) (mechanismKnown : Bool) : ℚ :=
  let pathwayScore := pathwayOverlap * (4 / 10)
  let targetScoreNorm := (min targetScore 1) * (3 / 10)
  let phaseScore := ((phase : ℚ) / 4) * (2 / 10)
  let mechanismScore : ℚ := if mechanismKnown then 1 / 10 else 1 / 20
  min (pathwayScore + targetScoreNorm + phaseScore + mechanismScore) 1

/-- Embedding of `_assess_feasibility` (lines 683-729). -/
def assessFeasibility (phase : Int) (pathwayOverlap : ℚ)
    (safetyConcerns : Nat) : String :=
  let score : ℚ :=
    (if phase = 4 then 40 else if phase = 3 then 30 else if phase = 2 then 20 else 10) +
    (if pathwayOverlap ≥ 4 / 10 then 40 else if pathwayOverlap ≥ 2 / 10 then 25 else 10) +
    (if safetyConcerns = 0 then 20 else if safetyConcerns ≤ 2 then 10 else 0)
  if score ≥ 70 then "HIGH" else if score ≥ 40 then "MEDIUM" else "LOW"

/-- Decimal printing of a rational rounded toward zero, used to model the
Python percent formatting `f"<overlap>:.0%"` inside narrative strings.
Rounding-mode differences from CPython are irrelevant: no claim depends on
these narrative strings. -/
def formatPercent (q : ℚ) : String :=
  toString (q * 100).floor ++ "%"

/-- Mechanistic explanation of `_explain_target_disease_link`
(lines 488-526). -/
structure MechanisticLink where
  explanation : String
  pathwayNames : List String
  confidence : ℚ
deriving Repr, DecidableEq

/-- Model of Python `str.replace` for the pathway-name cleanup
(`p.replace("R-HSA-", "").replace("_", " ")`).  Only the two fixed
patterns used by the source are supported. -/
def cleanPathwayName (p : String) : String :=
  let rec dropHsa : List Char → List Char
    | 'R' :: '-' :: 'H' :: 'S' :: 'A' :: '-' :: rest => dropHsa rest
    | c :: rest => c :: dropHsa rest
    | [] => []
  ⟨(dropHsa p.data).map (fun c => if c = '_' then ' ' else c)⟩

/-- Model of Python `", ".join`. -/
def joinComma : List String → String
  | [] => ""
  | [s] => s
  | s :: rest => s ++ ", " ++ joinComma rest

/-- Embedding of `_explain_target_disease_link` (lines 488-526). -/
def explainTargetDiseaseLink (drugName targetSymbol mechanism disease : String)
    (sharedPathways : List String) (pathwayOverlap : ℚ) : MechanisticLink :=
  if pathwayOverlap ≥ 3 / 10 ∧ sharedPathways ≠ [] then
    let pathwayNames := (sharedPathways.take 3).map cleanPathwayName
    { explanation :=
        drugName ++ " modulates " ++ targetSymbol ++ " via " ++ mechanism ++ ". " ++
        "This target is implicated in " ++ disease ++ " through " ++
        toString sharedPathways.length ++ " shared biological pathways, including: " ++
        joinComma (pathwayNames.take 2) ++ ". " ++
        "The " ++ formatPercent pathwayOverlap ++
        " pathway overlap suggests strong mechanistic relevance. " ++
        "Targeting " ++ targetSymbol ++ " may disrupt disease-driving processes in " ++
        disease ++ "."
      pathwayNames := (sharedPathways.take 5).map cleanPathwayName
      confidence := min (pathwayOverlap * (3 / 2)) 1 }
  else
    { explanation :=
        drugName ++ " modulates " ++ targetSymbol ++ " via " ++ mechanism ++ ". " ++
        "While pathway overlap is limited (" ++ formatPercent pathwayOverlap ++ "), " ++
        targetSymbol ++ " is associated with " ++ disease ++
        " and may represent a novel therapeutic angle."
      pathwayNames := (sharedPathways.take 5).map cleanPathwayName
      confidence := min (pathwayOverlap * (3 / 2)) 1 }

/-- Embedding of the `RepurposingCandidate` dataclass (lines 33-76). -/
structure RepurposingCandidate where
  drugName : String
  drugId : Option String
  phase : Int
  drugType : String
  molecularTarget : String
  targetProtein : String
  targetEnsemblId : String
  originalIndication : String
  proposedIndication : String
  mechanismOfAction : String
  diseasePathwayLink : String
  sharedPathways : List String
  pathwayOverlapScore : ℚ
  opentargetsScore : ℚ
  clinicalPhaseOriginal : Int
  preclinicalEvidence : List String
  epidemiologicalSignal : Option String
  inVitroExperiments : List String
  inVivoExperiments : List String
  biomarkersToMeasure : List String
  safetyConcerns : List String
  contraindications : List String
  pharmacokineticConsiderations : List String
  mechanisticConfidence : ℚ
  noveltyScore : ℚ
  repurposingFeasibility : String
deriving Repr, DecidableEq

/-- Embedding of `_build_mechanistic_candidate` (lines 377-486).  The
source wraps the construction in `try/except` but the body cannot raise,
so the model returns the candidate directly. -/
def buildMechanisticCandidate (drug : Drug) (targetSymbol targetEnsembl : String)
    (targetScore : ℚ) (proposedDisease : String)
    (sharedPathways : List String) (pathwayOverlapScore : ℚ) : RepurposingCandidate :=
  let mechanisticLink := explainTargetDiseaseLink drug.name targetSymbol drug.mechanism
    proposedDisease sharedPathways pathwayOverlapScore
  let experiments := designValidationExperiments drug.name targetSymbol
    proposedDisease drug.phase
  let safety := assessRepurposingSafety drug.drugType drug.indication
    proposedDisease drug.phase
  let mechanisticConfidence := calculateMechanisticConfidence pathwayOverlapScore
    targetScore drug.phase (drug.mechanism ≠ "Unknown mechanism")
  let feasibility := assessFeasibility drug.phase pathwayOverlapScore
    safety.concerns.length
  { drugName := drug.name
    drugId := drug.id
    phase := drug.phase
    drugType := drug.drugType
    molecularTarget := targetSymbol
    targetProtein := targetSymbol ++ " protein"
    targetEnsemblId := targetEnsembl
    originalIndication := drug.indication
    proposedIndication := proposedDisease
    mechanismOfAction := drug.mechanism
    diseasePathwayLink := mechanisticLink.explanation
    sharedPathways := mechanisticLink.pathwayNames
    pathwayOverlapScore := pathwayOverlapScore
    opentargetsScore := targetScore
    clinicalPhaseOriginal := drug.phase
    preclinicalEvidence := []
    epidemiologicalSignal := none
    inVitroExperiments := experiments.inVitro
    inVivoExperiments := experiments.inVivo
    biomarkersToMeasure := experiments.biomarkers
    safetyConcerns := safety.concerns
    contraindications := safety.contraindications
    pharmacokineticConsiderations := safety.pkConsiderations
    mechanisticConfidence := mechanisticConfidence
    noveltyScore := 100
    repurposingFeasibility := feasibility }

/-- Inputs of `_process_single_target` with the two collaborator calls
(pathway integrator, OpenTargets drug fetch) replaced by their decoded
responses: the pathway-overlap result for the target and the `knownDrugs`
rows returned for it. -/
structure TargetInput where
  symbol : String
  ensemblId : String
  opentargetsScore : ℚ
  jaccard : ℚ
  overlapPathways : List String
  knownDrugRows : List KnownDrugRow
deriving Repr, DecidableEq

/-- Embedding of `MechanisticRepurposingEngine._process_single_target`
(lines 95-174): fetch the target's drugs, drop drugs that already treat
the query disease, and build a mechanistic candidate for each survivor.
No per-target truncation occurs. -/
def processSingleTarget (target : TargetInput) (diseaseName : String)
    (minPhase : Int) : List RepurposingCandidate :=
  let drugs := fetchDrugsForTarget target.knownDrugRows minPhase
  (drugs.filter (fun drug => ! drugTreatsDisease drug.indication diseaseName)).map
    (fun drug => buildMechanisticCandidate drug target.symbol target.ensemblId
      target.opentargetsScore diseaseName target.overlapPathways target.jaccard)

/-- Sort key of the cross-target ranking in `find_repurposing_candidates`
(lines 237-242). -/
def rankKey (c : RepurposingCandidate) : ℚ :=
  c.mechanisticConfidence * (35 / 100) +
  c.pathwayOverlapScore * (2 / 10) +
  c.opentargetsScore * (35 / 100) +
  ((c.phase : ℚ) / 4) * (1 / 10)

/-- Descending order on the ranking key, as used by
`candidates.sort(key=..., reverse=True)`. -/
def rankLE (a b : RepurposingCandidate) : Prop := rankKey b ≤ rankKey a

instance : DecidableRel rankLE := fun a b => by
  unfold rankLE; infer_instance

instance : IsTotal RepurposingCandidate rankLE :=
  ⟨fun a b => le_total (rankKey b) (rankKey a)⟩

instance : IsTrans RepurposingCandidate rankLE :=
  ⟨fun _ _ _ hab hbc => le_trans hbc hab⟩

/-- Embedding of `MechanisticRepurposingEngine.find_repurposing_candidates`
(lines 176-250): process the first five targets, concatenate their
candidates, sort by the composite ranking key (descending) and keep the
top `topN` (default 50). -/
def findRepurposingCandidates (diseaseName : String) (diseaseTargets : List TargetInput)
    (minPhase : Int := 1) (topN : Nat := 50) : List RepurposingCandidate :=
  let candidates :=
    ((diseaseTargets.take 5).map
      (fun t => processSingleTarget t diseaseName minPhase)).flatten
  (candidates.insertionSort rankLE).take topN

end MRE

namespace MRE

/-- Unfolding lemma: a candidate returned by the engine comes from one of
the first five targets, via the repurposing filter. -/
theorem mem_findRepurposingCandidates {c : RepurposingCandidate} {diseaseName : String}
    {targets : List TargetInput} {minPhase : Int} {topN : Nat}
    (h : c ∈ findRepurposingCandidates diseaseName targets minPhase topN) :
    ∃ t ∈ targets.take 5, c ∈ processSingleTarget t diseaseName minPhase := by
  unfold findRepurposingCandidates at h
  have h1 := List.mem_of_mem_take h
  have h2 := (List.perm_insertionSort rankLE _).mem_iff.mp h1
  rw [List.mem_flatten] at h2
  obtain ⟨l, hl, hc⟩ := h2
  rw [List.mem_map] at hl
  obtain ⟨t, ht, rfl⟩ := hl
  exact ⟨t, ht, hc⟩

/-- Unfolding lemma: a candidate of `processSingleTarget` is built from a
fetched drug that passed the `_drug_treats_disease` filter, and it carries
that drug's indication string. -/
theorem mem_processSingleTarget {c : RepurposingCandidate} {t : TargetInput}
    {diseaseName : String} {minPhase : Int}
    (h : c ∈ processSingleTarget t diseaseName minPhase) :
    ∃ d ∈ fetchDrugsForTarget t.knownDrugRows minPhase,
      drugTreatsDisease d.indication diseaseName = false ∧
      c.originalIndication = d.indication := by
  unfold processSingleTarget at h
  rw [List.mem_map] at h
  obtain ⟨d, hd, rfl⟩ := h
  rw [List.mem_filter] at hd
  exact ⟨d, hd.1, by simpa using hd.2, rfl⟩

/-- Characterization of a drug kept by `_drug_treats_disease`: either the
indication string is one of the sentinel "no indication" values, or the
lowercased indication does not contain the lowercased disease name and
shares at most one word token of length > 3 with it. -/
theorem drugTreatsDisease_eq_false_iff (ind disease : String) :
    drugTreatsDisease ind disease = false ↔
      ((ind = "" ∨ ind = "Unknown indication" ∨ ind = "Unknown") ∨
       (PyStr.strContains (PyStr.lower ind) (PyStr.lower disease) = false ∧
        sharedLongTokens ind disease ≤ 1)) := by
  have hni : noIndication ind = true ↔
      (ind = "" ∨ ind = "Unknown indication" ∨ ind = "Unknown") := by
    simp [noIndication, or_assoc]
  unfold drugTreatsDisease
  cases h1 : noIndication ind
  · cases h2 : PyStr.strContains (PyStr.lower ind) (PyStr.lower disease)
    · simp only [Bool.false_eq_true, if_false, decide_eq_false_iff_not, not_le]
      constructor
      · intro h; exact Or.inr ⟨trivial, by omega⟩
      · rintro (hs | ⟨_, hn⟩)
        · rw [← hni] at hs; rw [h1] at hs; cases hs
        · omega
    · simp only [Bool.false_eq_true, if_false, if_true]
      constructor
      · intro h; cases h
      · rintro (hs | ⟨hc, _⟩)
        · rw [← hni] at hs; rw [h1] at hs; cases hs
        · cases hc
  · simp only [if_true]
    rw [hni] at h1
    tauto

end MRE

/-! ### Claim C1

The repository's filter does satisfy the containment / token-overlap
property for drugs that carry a genuine indication string, and it does
keep every drug with an empty or `"Unknown indication"` indication.  But
the two halves of the claim conflict: a kept "Unknown indication" row is
itself a candidate whose lowercased indication can contain the query
disease name (take the query disease `"unknown indication"`), so the
universally quantified first half is false as stated.
-/

namespace MRE

/-- Sample row whose indication defaults to "Unknown indication". -/
def c1Row : KnownDrugRow :=
  { drugId := some "CHEMBL1431", drugName := some "Metformin",
    drugType := some "Small molecule", maximumClinicalTrialPhase := some 4,
    isApproved := some true, diseaseId := none, diseaseName := none,
    mechanismOfAction := some "AMPK activator", rowPhase := some 4 }

/-- Sample target for the C1 counterexample. -/
def c1Target : TargetInput :=
  { symbol := "PRKAA1", ensemblId := "ENSG00000132356", opentargetsScore := 1 / 2,
    jaccard := 1 / 2, overlapPathways := ["R-HSA-1632852"], knownDrugRows := [c1Row] }

/-- Claim C1 is false as stated: for the query disease
"unknown indication", the engine emits a candidate (the kept
"Unknown indication" row) whose lowercased original indication contains
the lowercased query disease name and shares 2 > 1 word tokens of
length > 3 with it. -/
theorem c1_indication_filter_counterexample :
    (findRepurposingCandidates "unknown indication" [c1Target]).map
      (fun c => c.originalIndication) = ["Unknown indication"] ∧
    PyStr.strContains (PyStr.lower "Unknown indication")
      (PyStr.lower "unknown indication") = true ∧
    sharedLongTokens "Unknown indication" "unknown indication" = 2 := by
  decide

/-- Amended claim C1: every candidate emitted by
`find_repurposing_candidates` either carries one of the sentinel
"no indication" strings (empty, "Unknown indication", "Unknown") — such
rows are never excluded by the filter — or its lowercased original
indication does not contain the lowercased query disease name and shares
at most 1 word token of length > 3 with it. -/
theorem c1_indication_filter_amended (diseaseName : String)
    (targets : List TargetInput) (minPhase : Int) (topN : Nat)
    (c : RepurposingCandidate)
    (hc : c ∈ findRepurposingCandidates diseaseName targets minPhase topN) :
    ((c.originalIndication = "" ∨ c.originalIndication = "Unknown indication" ∨
        c.originalIndication = "Unknown") ∨
      (PyStr.strContains (PyStr.lower c.originalIndication)
          (PyStr.lower diseaseName) = false ∧
        sharedLongTokens c.originalIndication diseaseName ≤ 1)) ∧
    drugTreatsDisease "" diseaseName = false ∧
    drugTreatsDisease "Unknown indication" diseaseName = false := by
  obtain ⟨t, _, hmem⟩ := mem_findRepurposingCandidates hc
  obtain ⟨d, _, hfilter, hind⟩ := mem_processSingleTarget hmem
  refine ⟨?_, ?_, ?_⟩
  · rw [hind]
    exact (drugTreatsDisease_eq_false_iff d.indication diseaseName).mp hfilter
  · rw [drugTreatsDisease_eq_false_iff]; tauto
  · rw [drugTreatsDisease_eq_false_iff]; tauto

/-- Concrete drug record fetched from `c1Row` at min_phase 1, used to
instantiate the amended-claim witness. -/
def c1Drug : Drug :=
  { id := some "CHEMBL1431", name := "Metformin", drugType := "Small molecule",
    phase := 4, approved := true, indication := "Unknown indication",
    indicationId := "", mechanism := "AMPK activator" }

/-- Candidate emitted for `c1Target` when the query disease is "cancer". -/
def c1WitnessCandidate : RepurposingCandidate :=
  buildMechanisticCandidate c1Drug "PRKAA1" "ENSG00000132356" (1 / 2) "cancer"
    ["R-HSA-1632852"] (1 / 2)

/-- Witness instantiating `c1_indication_filter_amended` at a concrete
run of the engine. -/
theorem c1_indication_filter_amended_witness :
    ((c1WitnessCandidate.originalIndication = "" ∨
        c1WitnessCandidate.originalIndication = "Unknown indication" ∨
        c1WitnessCandidate.originalIndication = "Unknown") ∨
      (PyStr.strContains (PyStr.lower c1WitnessCandidate.originalIndication)
          (PyStr.lower "cancer") = false ∧
        sharedLongTokens c1WitnessCandidate.originalIndication "cancer" ≤ 1)) ∧
    drugTreatsDisease "" "cancer" = false ∧
    drugTreatsDisease "Unknown indication" "cancer" = false :=
  c1_indication_filter_amended "cancer" [c1Target] 1 50 c1WitnessCandidate
    (List.Mem.head _)

end MRE

/-! ### Claim C4

The claim is false on the code, in two ways: the GraphQL query requests
`knownDrugs(size: 10)`, not 100, and `_process_single_target` applies no
per-target cap at all — every drug surviving the phase and indication
filters yields a candidate, so a single target can contribute 16 (or any
number of) candidates.
-/

namespace MRE

/-- Known-drug row for the C4 counterexample, parameterized by drug name. -/
def c4Row (n : String) : KnownDrugRow :=
  { drugId := some n, drugName := some n, drugType := some "Small molecule",
    maximumClinicalTrialPhase := some 4, isApproved := some true,
    diseaseId := some "EFO_0000685", diseaseName := some "rheumatoid arthritis",
    mechanismOfAction := some "inhibitor", rowPhase := some 4 }

/-- Target with 16 known drugs, none of whose indications match the query
disease "cancer". -/
def c4Target : TargetInput :=
  { symbol := "JAK2", ensemblId := "ENSG00000096968", opentargetsScore := 1 / 2,
    jaccard := 1 / 2, overlapPathways := ["R-HSA-6785807"],
    knownDrugRows := (List.range 16).map (fun i => c4Row ("drug" ++ toString i)) }

set_option maxRecDepth 8000 in
/-- Claim C4 is false as stated: the `knownDrugs` query requests size 10
(not 100), and a single target contributes 16 > 15 candidates, all of
which survive into the overall ranking — there is no per-target cap of
K = 15. -/
theorem c4_size_and_cap_counterexample :
    PyStr.strContains targetDrugsQuery "knownDrugs(size: 100)" = false ∧
    PyStr.strContains targetDrugsQuery "knownDrugs(size: 10)" = true ∧
    (processSingleTarget c4Target "cancer" 1).length = 16 ∧
    (findRepurposingCandidates "cancer" [c4Target] 1 50).length = 16 := by
  refine ⟨by decide, by decide, by decide, ?_⟩
  unfold findRepurposingCandidates
  rw [List.length_take, (List.perm_insertionSort rankLE _).length_eq]
  decide

/-- Amended claim C4: the `knownDrugs` query requests size 10; every drug
surviving the phase filter and the repurposing filter yields a candidate
(no per-target cap); and the overall cross-target ranking sorts by the
composite confidence key (descending) and returns at most top-N
candidates (N = 50 by default in `find_repurposing_candidates`). -/
theorem c4_size_and_cap_amended :
    PyStr.strContains targetDrugsQuery "knownDrugs(size: 10)" = true ∧
    (∀ (t : TargetInput) (diseaseName : String) (minPhase : Int),
      (processSingleTarget t diseaseName minPhase).length =
        ((fetchDrugsForTarget t.knownDrugRows minPhase).filter
          (fun d => ! drugTreatsDisease d.indication diseaseName)).length) ∧
    (∀ (diseaseName : String) (targets : List TargetInput) (minPhase : Int)
        (topN : Nat),
      (findRepurposingCandidates diseaseName targets minPhase topN).length ≤ topN ∧
      List.Sorted rankLE (findRepurposingCandidates diseaseName targets minPhase topN)) := by
  refine ⟨by decide, ?_, ?_⟩
  · intro t diseaseName minPhase
    unfold processSingleTarget
    rw [List.length_map]
  · intro diseaseName targets minPhase topN
    constructor
    · unfold findRepurposingCandidates
      rw [List.length_take]
      exact min_le_left _ _
    · unfold findRepurposingCandidates
      exact (List.sorted_insertionSort rankLE _).sublist (List.take_sublist _ _)

end MRE

/-! ## Scoring Engine (`src/kg/scoring_engine.py`)

Claim C2.  Python floats are modelled as rationals; the `math.isclose`
weight validation is modelled with its exact semantics (relative
tolerance 1e-9, absolute tolerance 1e-2).
-/

namespace Scoring

/-- Embedding of the `ScoringWeights` dataclass fields
(src/kg/scoring_engine.py lines 8-15). -/
structure ScoringWeights where
  clinicalPhase : ℚ
  evidenceStrength : ℚ
  mechanismOverlap : ℚ
  safetyProfile : ℚ
  novelty : ℚ
deriving Repr, DecidableEq

/-- Model of `math.isclose(a, b, abs_tol=0.01)`: CPython semantics with
the default relative tolerance 1e-9 and the given absolute tolerance. -/
def isclose (a b : ℚ) : Prop :=
  |a - b| ≤ max ((1 / 1000000000) * max |a| |b|) (1 / 100)

instance (a b : ℚ) : Decidable (isclose a b) := by
  unfold isclose; infer_instance

/-- Decimal printing of a rational with roughly one fractional digit,
used only inside narrative strings no claim depends on (CPython float
formatting is not modelled bit-exactly). -/
def formatFixed1 (q : ℚ) : String :=
  let n := (q * 10).floor
  toString (n / 10) ++ "." ++ toString (n % 10)

/-- Embedding of `ScoringWeights.__post_init__` (lines 17-27): validated
construction that raises `ValueError` unless the five weights sum to 1.0
under `math.isclose(..., abs_tol=0.01)`. -/
def mkScoringWeights (cp es mo sp nv : ℚ) : Except String ScoringWeights :=
  let total := cp + es + mo + sp + nv
  if isclose total 1 then
    .ok { clinicalPhase := cp, evidenceStrength := es, mechanismOverlap := mo,
          safetyProfile := sp, novelty := nv }
  else
    .error ("Weights must sum to 1.0, got " ++ formatFixed1 total)

/-- Default weights of `ScoringWeights` (lines 11-15); `ScoringEngine` is
constructed with these throughout the repository. -/
def defaultWeights : ScoringWeights :=
  { clinicalPhase := 35 / 100, evidenceStrength := 25 / 100,
    mechanismOverlap := 20 / 100, safetyProfile := 10 / 100, novelty := 10 / 100 }

/-- Embedding of the `ScoreBreakdown` dataclass (lines 31-42). -/
structure ScoreBreakdown where
  compositeScore : ℚ
  noveltyScore : ℚ
  clinicalPhaseScore : ℚ
  evidenceScore : ℚ
  mechanismScore : ℚ
  safetyScore : ℚ
  confidence : ℚ
  reasoning : String
  flags : List String
deriving Repr, DecidableEq

/-- Candidate dictionary consumed by
`ScoringEngine.calculate_composite_score` (lines 284-310), with the keys
the method reads; `Option` marks keys whose absence the code
distinguishes, and the documented `dict.get` defaults are applied at the
use sites. -/
structure CandidateInfo where
  phase : Int
  hasClinicalEvidence : Bool
  opentargetsScore : ℚ
  evidenceCount : Nat
  literatureCount : Option Nat
  pathwayOverlap : Option ℚ
  hasKnownMechanism : Bool
  targetDruggability : Option String
  hasBlackBoxWarning : Bool
  hasSeriousAdverseEvents : Bool
  withdrawalHistory : Bool
  yearsOnMarket : Option Nat
  repurposingNovelty : Option ℚ
  originalIndication : Option String
deriving Repr, DecidableEq

/-- Embedding of `ScoringEngine.score_clinical_phase` (lines 66-90). -/
def scoreClinicalPhase (phase : Int) : ℚ :=
  if phase = 0 then 10
  else if phase = 1 then 30
  else if phase = 2 then 50
  else if phase = 3 then 70
  else if phase = 4 then 100
  else 10

/-- Literature bucket of `score_evidence_strength` (lines 131-143). -/
def literatureBucket (literatureCount : Option Nat) : ℚ :=
  match literatureCount with
  | none => 0
  | some n =>
    if n ≥ 100 then 10
    else if n ≥ 50 then 8
    else if n ≥ 20 then 6
    else if n ≥ 10 then 4
    else if n ≥ 5 then 2
    else 0

/-- Embedding of `ScoringEngine.score_evidence_strength` (lines 92-145). -/
def scoreEvidenceStrength (hasClinicalEvidence : Bool) (opentargetsScore : ℚ)
    (evidenceCount : Nat) (literatureCount : Option Nat) : ℚ :=
  let score : ℚ :=
    (if hasClinicalEvidence then 40 else 0) +
    opentargetsScore * 30 +
    min ((evidenceCount : ℚ) * 5) 20 +
    literatureBucket literatureCount
  min score 100

/-- Druggability bucket of `score_mechanism_overlap` (lines 195-202);
`if target_druggability:` treats the empty string as absent. -/
def druggabilityBucket (targetDruggability : Option String) : ℚ :=
  match targetDruggability with
  | none => 0
  | some td =>
    if td = "" then 0
    else if td = "Tier 1" then 15
    else if td = "Tier 2" then 10
    else if td = "Tier 3" then 5
    else 2

/-- Embedding of `ScoringEngine.score_mechanism_overlap` (lines 147-204). -/
def scoreMechanismOverlap (opentargetsScore : ℚ) (pathwayOverlap : Option ℚ)
    (hasKnownMechanism : Bool) (targetDruggability : Option String) : ℚ :=
  let score : ℚ :=
    opentargetsScore * 40 +
    (match pathwayOverlap with
     | some po => if po > 15 / 100 then po * 30 else 5
     | none => 10) +
    (if hasKnownMechanism then 15 else 0) +
    druggabilityBucket targetDruggability
  min score 100

/-- Embedding of `ScoringEngine.score_safety_profile` (lines 206-249). -/
def scoreSafetyProfile (hasBlackBoxWarning hasSeriousAdverseEvents
    withdrawalHistory : Bool) (yearsOnMarket : Option Nat) : ℚ :=
  let score : ℚ :=
    100 - (if hasBlackBoxWarning then 30 else 0) -
    (if hasSeriousAdverseEvents then 20 else 0) -
    (if withdrawalHistory then 40 else 0)
  let score := if yearsOnMarket.getD 0 ≥ 10 then min (score + 10) 100 else score
  max score 0

/-- Embedding of `ScoringEngine.score_repurposing_novelty`
(lines 252-279); `if original_indication:` treats the empty string as
absent. -/
def scoreRepurposingNovelty (repurposingNovelty : Option ℚ)
    (originalIndication : Option String) : ℚ :=
  match repurposingNovelty with
  | some v => min v 100
  | none =>
    match originalIndication with
    | some s => if s = "" then 50 else 70
    | none => 50

/-- Model of Python `", ".join` reused for the reasoning string. -/
def joinComma : List String → String
  | [] => ""
  | [s] => s
  | s :: rest => s ++ ", " ++ joinComma rest

/-- Embedding of `ScoringEngine.calculate_composite_score`
(lines 284-401) at a given weights configuration. -/
def calculateCompositeScore (weights : ScoringWeights)
    (c : CandidateInfo) : ScoreBreakdown :=
  let noveltyScore := scoreRepurposingNovelty c.repurposingNovelty c.originalIndication
  let clinicalScore := scoreClinicalPhase c.phase
  let evidenceScore := scoreEvidenceStrength c.hasClinicalEvidence c.opentargetsScore
    c.evidenceCount c.literatureCount
  let mechanismScore := scoreMechanismOverlap c.opentargetsScore c.pathwayOverlap
    c.hasKnownMechanism c.targetDruggability
  let safetyScore := scoreSafetyProfile c.hasBlackBoxWarning c.hasSeriousAdverseEvents
    c.withdrawalHistory c.yearsOnMarket
  let composite :=
    noveltyScore * weights.novelty +
    clinicalScore * weights.clinicalPhase +
    mechanismScore * weights.mechanismOverlap +
    evidenceScore * weights.evidenceStrength +
    safetyScore * weights.safetyProfile
  let dataCompleteness : ℚ :=
    ((if c.hasClinicalEvidence then 1 else 0) +
     (if c.pathwayOverlap.isSome then 1 else 0) +
     (if c.literatureCount.isSome then 1 else 0) +
     (if c.targetDruggability.isSome then 1 else 0) +
     (if c.repurposingNovelty.isSome then 1 else 0)) / 5
  let confidence := 1 / 2 + dataCompleteness * (1 / 2)
  let reasoningParts :=
    (if noveltyScore ≥ 80 then ["high repurposing novelty"] else []) ++
    (if clinicalScore ≥ 70 then ["strong clinical data"] else []) ++
    (if mechanismScore ≥ 60 then ["good mechanistic rationale"] else []) ++
    (if evidenceScore ≥ 70 then ["robust evidence"] else []) ++
    (if safetyScore < 70 then ["some safety concerns"] else [])
  let reasoning :=
    if reasoningParts ≠ [] then
      "Composite score " ++ formatFixed1 composite ++ "/100 based on: " ++
        joinComma reasoningParts
    else
      "Composite score " ++ formatFixed1 composite ++ "/100"
  let flags :=
    (if noveltyScore < 50 then ["low_novelty"] else []) ++
    (if clinicalScore < 30 then ["early_stage"] else []) ++
    (if evidenceScore < 40 then ["weak_evidence"] else []) ++
    (if safetyScore < 60 then ["safety_concerns"] else []) ++
    (if confidence < 7 / 10 then ["incomplete_data"] else [])
  { compositeScore := composite
    noveltyScore := noveltyScore
    clinicalPhaseScore := clinicalScore
    evidenceScore := evidenceScore
    mechanismScore := mechanismScore
    safetyScore := safetyScore
    confidence := confidence
    reasoning := reasoning
    flags := flags }

/-- Domain of the scorer inputs as documented in the source
(`opentargets_score: Association score (0-1)`,
`repurposing_novelty: Pre-calculated novelty score (0-100)`). -/
def ValidInput (c : CandidateInfo) : Prop :=
  0 ≤ c.opentargetsScore ∧ (∀ v, c.repurposingNovelty = some v → 0 ≤ v)

theorem scoreClinicalPhase_bounds (p : Int) :
    0 ≤ scoreClinicalPhase p ∧ scoreClinicalPhase p ≤ 100 := by
  unfold scoreClinicalPhase
  split_ifs <;> norm_num

theorem scoreEvidenceStrength_bounds (hce : Bool) (ot : ℚ) (hot : 0 ≤ ot)
    (ec : Nat) (litc : Option Nat) :
    0 ≤ scoreEvidenceStrength hce ot ec litc ∧
    scoreEvidenceStrength hce ot ec litc ≤ 100 := by
  unfold scoreEvidenceStrength
  refine ⟨le_min ?_ (by norm_num), min_le_right _ _⟩
  have h1 : (0 : ℚ) ≤ if hce then 40 else 0 := by split_ifs <;> norm_num
  have h2 : (0 : ℚ) ≤ ot * 30 := by positivity
  have h3 : (0 : ℚ) ≤ min ((ec : ℚ) * 5) 20 := le_min (by positivity) (by norm_num)
  have h4 : (0 : ℚ) ≤ literatureBucket litc := by
    unfold literatureBucket
    rcases litc with _ | n
    · norm_num
    · simp only []
      split_ifs <;> norm_num
  linarith

theorem scoreMechanismOverlap_bounds (ot : ℚ) (hot : 0 ≤ ot)
    (po : Option ℚ) (mech : Bool) (td : Option String) :
    0 ≤ scoreMechanismOverlap ot po mech td ∧
    scoreMechanismOverlap ot po mech td ≤ 100 := by
  unfold scoreMechanismOverlap
  refine ⟨le_min ?_ (by norm_num), min_le_right _ _⟩
  have h1 : (0 : ℚ) ≤ ot * 40 := by positivity
  have h2 : (0 : ℚ) ≤ (match po with
      | some q => if q > 15 / 100 then q * 30 else 5
      | none => 10) := by
    rcases po with _ | q
    · norm_num
    · simp only []
      split_ifs with h
      · nlinarith
      · norm_num
  have h3 : (0 : ℚ) ≤ if mech then 15 else 0 := by split_ifs <;> norm_num
  have h4 : (0 : ℚ) ≤ druggabilityBucket td := by
    unfold druggabilityBucket
    rcases td with _ | s
    · norm_num
    · simp only []
      split_ifs <;> norm_num
  linarith

theorem scoreSafetyProfile_bounds (bb sae wd : Bool) (y : Option Nat) :
    0 ≤ scoreSafetyProfile bb sae wd y ∧ scoreSafetyProfile bb sae wd y ≤ 100 := by
  unfold scoreSafetyProfile
  refine ⟨le_max_right _ _, max_le ?_ (by norm_num)⟩
  split_ifs <;> simp_all <;> norm_num

theorem scoreRepurposingNovelty_bounds (rn : Option ℚ)
    (hrn : ∀ v, rn = some v → 0 ≤ v) (oi : Option String) :
    0 ≤ scoreRepurposingNovelty rn oi ∧ scoreRepurposingNovelty rn oi ≤ 100 := by
  unfold scoreRepurposingNovelty
  rcases rn with _ | v
  · rcases oi with _ | s
    · norm_num
    · simp only []
      split_ifs <;> norm_num
  · exact ⟨le_min (hrn v rfl) (by norm_num), min_le_right _ _⟩

end Scoring

namespace Scoring

/-- With the absolute tolerance 0.01, CPython `isclose(total, 1.0)` is
exactly the condition |total - 1| ≤ 1/100: the default relative
tolerance 1e-9 can only dominate for totals of magnitude above 1e7,
where closeness to 1 is impossible anyway. -/
theorem isclose_one_iff (t : ℚ) : isclose t 1 ↔ |t - 1| ≤ 1 / 100 := by
  unfold isclose
  constructor
  · intro h
    rcases le_total ((1 / 1000000000 : ℚ) * max |t| |1| ) (1 / 100) with hle | hgt
    · exact h.trans (max_le hle le_rfl)
    · exfalso
      have habs : |(1 : ℚ)| = 1 := by norm_num
      rw [habs] at h hgt
      have hM : (10000000 : ℚ) ≤ max |t| 1 := by linarith
      have ht1 : (1 : ℚ) ≤ |t| := by
        rcases max_cases |t| (1 : ℚ) with ⟨he, hge⟩ | ⟨he, hlt⟩
        · linarith
        · rw [he] at hM; linarith
      have hmax : max |t| (1 : ℚ) = |t| := max_eq_left ht1
      rw [hmax] at h hM
      have hub : |t - 1| ≤ (1 / 1000000000) * |t| :=
        h.trans (max_le le_rfl (by linarith))
      have hlb : |t| - 1 ≤ |t - 1| := by
        have := abs_sub_abs_le_abs_sub t (1 : ℚ)
        rw [habs] at this
        linarith
      linarith
  · intro h
    exact h.trans (le_max_right _ _)

/-- Claim C2: at the default configuration (the only one the repository
constructs), every sub-score of `calculate_composite_score` lies in
[0, 100] and so does the composite, provided the inputs respect their
documented domains (`opentargets_score ≥ 0`, `repurposing_novelty ≥ 0`);
and `ScoringWeights` construction succeeds exactly when the five weights
sum to 1.0 within an absolute tolerance of 1e-2. -/
theorem c2_scores_bounded_and_weights_validated :
    (∀ c : CandidateInfo, ValidInput c →
      let b := calculateCompositeScore defaultWeights c
      (0 ≤ b.noveltyScore ∧ b.noveltyScore ≤ 100) ∧
      (0 ≤ b.clinicalPhaseScore ∧ b.clinicalPhaseScore ≤ 100) ∧
      (0 ≤ b.evidenceScore ∧ b.evidenceScore ≤ 100) ∧
      (0 ≤ b.mechanismScore ∧ b.mechanismScore ≤ 100) ∧
      (0 ≤ b.safetyScore ∧ b.safetyScore ≤ 100) ∧
      (0 ≤ b.compositeScore ∧ b.compositeScore ≤ 100)) ∧
    (∀ cp es mo sp nv : ℚ,
      (mkScoringWeights cp es mo sp nv).isOk = true ↔
        |cp + es + mo + sp + nv - 1| ≤ 1 / 100) := by
  constructor
  · rintro c ⟨hot, hrn⟩
    have hn := scoreRepurposingNovelty_bounds c.repurposingNovelty hrn c.originalIndication
    have hc := scoreClinicalPhase_bounds c.phase
    have he := scoreEvidenceStrength_bounds c.hasClinicalEvidence c.opentargetsScore hot
      c.evidenceCount c.literatureCount
    have hm := scoreMechanismOverlap_bounds c.opentargetsScore hot c.pathwayOverlap
      c.hasKnownMechanism c.targetDruggability
    have hs := scoreSafetyProfile_bounds c.hasBlackBoxWarning c.hasSeriousAdverseEvents
      c.withdrawalHistory c.yearsOnMarket
    refine ⟨hn, hc, he, hm, hs, ?_, ?_⟩
    · show (0 : ℚ) ≤ _ * (10 / 100) + _ * (35 / 100) + _ * (20 / 100) +
        _ * (25 / 100) + _ * (10 / 100)
      have := hn.1; have := hc.1; have := he.1; have := hm.1; have := hs.1
      nlinarith [hn.1, hc.1, he.1, hm.1, hs.1]
    · show _ * (10 / 100) + _ * (35 / 100) + _ * (20 / 100) +
        _ * (25 / 100) + _ * (10 / 100) ≤ (100 : ℚ)
      nlinarith [hn.2, hc.2, he.2, hm.2, hs.2]
  · intro cp es mo sp nv
    unfold mkScoringWeights
    rw [← isclose_one_iff]
    by_cases h : isclose (cp + es + mo + sp + nv) 1
    · simp [h, Except.isOk, Except.toBool]
    · simp [h, Except.isOk, Except.toBool]

/-- Witness instantiating the bounded-scores half of claim C2 at a
concrete candidate and the weight-validation half at the default
weights. -/
theorem c2_scores_bounded_witness :
    (ValidInput
      { phase := 4, hasClinicalEvidence := true, opentargetsScore := 1 / 2,
        evidenceCount := 3, literatureCount := some 25, pathwayOverlap := some (2 / 10),
        hasKnownMechanism := true, targetDruggability := some "Tier 1",
        hasBlackBoxWarning := false, hasSeriousAdverseEvents := false,
        withdrawalHistory := false, yearsOnMarket := some 12,
        repurposingNovelty := some 90, originalIndication := some "type 2 diabetes" }) ∧
    (let b := calculateCompositeScore defaultWeights
      { phase := 4, hasClinicalEvidence := true, opentargetsScore := 1 / 2,
        evidenceCount := 3, literatureCount := some 25, pathwayOverlap := some (2 / 10),
        hasKnownMechanism := true, targetDruggability := some "Tier 1",
        hasBlackBoxWarning := false, hasSeriousAdverseEvents := false,
        withdrawalHistory := false, yearsOnMarket := some 12,
        repurposingNovelty := some 90, originalIndication := some "type 2 diabetes" }
     (0 ≤ b.noveltyScore ∧ b.noveltyScore ≤ 100) ∧
     (0 ≤ b.clinicalPhaseScore ∧ b.clinicalPhaseScore ≤ 100) ∧
     (0 ≤ b.evidenceScore ∧ b.evidenceScore ≤ 100) ∧
     (0 ≤ b.mechanismScore ∧ b.mechanismScore ≤ 100) ∧
     (0 ≤ b.safetyScore ∧ b.safetyScore ≤ 100) ∧
     (0 ≤ b.compositeScore ∧ b.compositeScore ≤ 100)) :=
  have hv : ValidInput
      { phase := 4, hasClinicalEvidence := true, opentargetsScore := 1 / 2,
        evidenceCount := 3, literatureCount := some 25, pathwayOverlap := some (2 / 10),
        hasKnownMechanism := true, targetDruggability := some "Tier 1",
        hasBlackBoxWarning := false, hasSeriousAdverseEvents := false,
        withdrawalHistory := false, yearsOnMarket := some 12,
        repurposingNovelty := some 90, originalIndication := some "type 2 diabetes" } :=
    ⟨by norm_num, by intro v hv; injection hv with h; rw [← h]; norm_num⟩
  ⟨hv, c2_scores_bounded_and_weights_validated.1 _ hv⟩

end Scoring

/-! ## Candidate Ranker (`src/kg/candidate_ranker.py`)

Claim C3.  The ranker consumes scored candidate dictionaries, computes
novelty/feasibility/final scores, sorts by final score (descending),
assigns 1-based ranks and optionally truncates to the top N.
-/

namespace Ranker

/-- Embedding of the `RankingStrategy` enum (lines 21-26). -/
inductive RankingStrategy where
  | scoreOnly
  | balanced
  | noveltyFocused
  | clinicalFocused
deriving Repr, DecidableEq

/-- Score-breakdown sub-dictionary read by the ranker
(`candidate.get("score_breakdown", {})`). -/
structure BreakdownInfo where
  compositeScore : ℚ
  safetyScore : ℚ
deriving Repr, DecidableEq

/-- Candidate dictionary consumed by `CandidateRanker.rank_candidates`,
with the keys the ranker reads and their `dict.get` defaults applied at
the use sites. -/
structure CandInput where
  drugId : Option String
  drugName : Option String
  phase : Int
  hasClinicalEvidence : Bool
  therapeuticAreaMatch : Option Bool
  mechanismUnexpected : Bool
  yearsOnMarket : Option ℚ
  isOral : Bool
  patentExpired : Bool
  hasKnownDosing : Bool
  scoreBreakdown : Option BreakdownInfo
deriving Repr, DecidableEq

/-- Embedding of the `RankedCandidate` dataclass (lines 29-53). -/
structure RankedCandidate where
  drugId : String
  drugName : String
  rank : Nat
  compositeScore : ℚ
  noveltyScore : ℚ
  feasibilityScore : ℚ
  finalScore : ℚ
  tier : String
  recommendation : String
deriving Repr, DecidableEq

/-- Embedding of `CandidateRanker.calculate_novelty_score` (lines 70-114).
The known-drugs bonus fires when the list is truthy (non-empty) and the
candidate's drug id is not in it (a missing id is vacuously not in it). -/
def calculateNoveltyScore (c : CandInput) (knownDrugs : Option (List String)) : ℚ :=
  let score : ℚ :=
    (if c.therapeuticAreaMatch = some false then 40 else 0) +
    (if ¬ c.hasClinicalEvidence then 30 else 0) +
    (if (match knownDrugs with
         | some ks => !ks.isEmpty && (match c.drugId with
             | some d => !ks.contains d
             | none => true)
         | none => false : Bool) then 20 else 0) +
    (if c.mechanismUnexpected then 20 else 0) +
    (if c.yearsOnMarket.getD 100 < 5 then 10 else 0)
  min score 100

/-- Embedding of `CandidateRanker.calculate_feasibility_score`
(lines 116-167). -/
def calculateFeasibilityScore (c : CandInput) : ℚ :=
  let safetyScore := (c.scoreBreakdown.map (fun b => b.safetyScore)).getD 50
  let score : ℚ :=
    (if c.phase = 4 then 40 else if c.phase ≥ 3 then 30
     else if c.phase ≥ 2 then 20 else 0) +
    (if c.isOral then 20 else 0) +
    (if safetyScore ≥ 90 then 20 else if safetyScore ≥ 70 then 15
     else if safetyScore ≥ 50 then 10 else 0) +
    (if c.patentExpired then 10 else 0) +
    (if c.hasKnownDosing then 10 else 0)
  min score 100

/-- Embedding of `CandidateRanker.calculate_final_score` (lines 169-214). -/
def calculateFinalScore (strategy : RankingStrategy)
    (compositeScore noveltyScore feasibilityScore : ℚ) : ℚ :=
  match strategy with
  | .scoreOnly => compositeScore
  | .balanced =>
    compositeScore * (6 / 10) + noveltyScore * (2 / 10) + feasibilityScore * (2 / 10)
  | .noveltyFocused =>
    compositeScore * (4 / 10) + noveltyScore * (4 / 10) + feasibilityScore * (2 / 10)
  | .clinicalFocused =>
    compositeScore * (5 / 10) + noveltyScore * (1 / 10) + feasibilityScore * (4 / 10)

/-- Embedding of `CandidateRanker.assign_tier` (lines 216-253). -/
def assignTier (finalScore : ℚ) (phase : Int) (hasClinicalEvidence : Bool) : String :=
  if finalScore ≥ 70 then "High Priority"
  else if phase = 4 ∧ hasClinicalEvidence then "High Priority"
  else if finalScore ≥ 50 then "Medium Priority"
  else if phase ≥ 3 then "Medium Priority"
  else "Low Priority"

/-- Embedding of `CandidateRanker.generate_recommendation`
(lines 255-293). -/
def generateRecommendation (c : CandInput) (tier : String)
    (noveltyScore feasibilityScore : ℚ) : String :=
  let drugName := c.drugName.getD "Unknown"
  if tier = "High Priority" then
    if c.phase = 4 then
      drugName ++ ": Strong repurposing candidate (approved drug). " ++
        "Recommend literature review and pilot study design."
    else
      drugName ++ ": High-confidence candidate. " ++
        "Recommend detailed mechanism investigation and feasibility assessment."
  else if tier = "Medium Priority" then
    if noveltyScore ≥ 70 then
      drugName ++ ": Novel candidate with interesting mechanism. " ++
        "Recommend pathway analysis and computational validation."
    else
      drugName ++ ": Moderate evidence. " ++
        "Recommend additional validation before clinical consideration."
  else
    if feasibilityScore < 30 then
      drugName ++ ": Low feasibility for repurposing. Consider for basic research only."
    else
      drugName ++ ": Insufficient evidence at this time. Monitor for emerging data."

/-- Loop body of `rank_candidates` (lines 316-361): build a
`RankedCandidate` with rank 0 (assigned after sorting). -/
def toRanked (strategy : RankingStrategy) (knownDrugs : Option (List String))
    (c : CandInput) : RankedCandidate :=
  let compositeScore := (c.scoreBreakdown.map (fun b => b.compositeScore)).getD 0
  let noveltyScore := calculateNoveltyScore c knownDrugs
  let feasibilityScore := calculateFeasibilityScore c
  let finalScore := calculateFinalScore strategy compositeScore noveltyScore
    feasibilityScore
  let tier := assignTier finalScore c.phase c.hasClinicalEvidence
  { drugId := c.drugId.getD ""
    drugName := c.drugName.getD ""
    rank := 0
    compositeScore := compositeScore
    noveltyScore := noveltyScore
    feasibilityScore := feasibilityScore
    finalScore := finalScore
    tier := tier
    recommendation := generateRecommendation c tier noveltyScore feasibilityScore }

/-- Descending order on the final score, as used by
`ranked.sort(key=lambda x: x.final_score, reverse=True)`. -/
def finalLE (a b : RankedCandidate) : Prop := b.finalScore ≤ a.finalScore

instance : DecidableRel finalLE := fun a b => by
  unfold finalLE; infer_instance

instance : IsTotal RankedCandidate finalLE :=
  ⟨fun a b => le_total b.finalScore a.finalScore⟩

instance : IsTrans RankedCandidate finalLE :=
  ⟨fun _ _ _ hab hbc => le_trans hbc hab⟩

/-- Rank assignment loop of `rank_candidates` (lines 367-368):
`candidate.rank = i` for 1-based `i` along the sorted list. -/
def assignRanks (i : Nat) : List RankedCandidate → List RankedCandidate
  | [] => []
  | c :: rest => { c with rank := i } :: assignRanks (i + 1) rest

/-- Truncation step of `rank_candidates` (lines 371-372): `if top_n:` is
Python-falsy for both `None` and 0. -/
def applyTopN (topN : Option Nat) (l : List RankedCandidate) : List RankedCandidate :=
  match topN with
  | none => l
  | some n => if n = 0 then l else l.take n

/-- Embedding of `CandidateRanker.rank_candidates` (lines 295-386). -/
def rankCandidates (strategy : RankingStrategy) (candidates : List CandInput)
    (knownDrugs : Option (List String)) (topN : Option Nat) : List RankedCandidate :=
  applyTopN topN
    (assignRanks 1 (List.insertionSort finalLE (candidates.map (toRanked strategy knownDrugs))))

theorem assignRanks_length (l : List RankedCandidate) (i : Nat) :
    (assignRanks i l).length = l.length := by
  induction l generalizing i with
  | nil => rfl
  | cons c rest ih => simp [assignRanks, ih]

theorem assignRanks_map_rank (l : List RankedCandidate) (i : Nat) :
    (assignRanks i l).map (fun c => c.rank) = List.range' i l.length := by
  induction l generalizing i with
  | nil => rfl
  | cons c rest ih => simp [assignRanks, List.range', ih]

theorem assignRanks_map_final (l : List RankedCandidate) (i : Nat) :
    (assignRanks i l).map (fun c => c.finalScore) = l.map (fun c => c.finalScore) := by
  induction l generalizing i with
  | nil => rfl
  | cons c rest ih => simp [assignRanks, ih]

/-- Pairwise descending final scores can be transported along any map
preserving the final-score projection. -/
theorem pairwise_finalLE_iff (l : List RankedCandidate) :
    List.Pairwise finalLE l ↔
      List.Pairwise (fun x y : ℚ => y ≤ x) (l.map (fun c => c.finalScore)) := by
  rw [List.pairwise_map]
  rfl

theorem take_range (n i m : Nat) :
    (List.range' i m).take n = List.range' i (min n m) := by
  induction m generalizing i n with
  | zero => simp
  | succ m ih =>
    cases n with
    | zero => simp
    | succ n => simp [List.range', List.range'_succ, ih, Nat.succ_min_succ]

/-- Claim C3: for every list of candidates — under any strategy, any
known-drug list and any `top_n` truncation (including none) — the list
returned by `rank_candidates` carries exactly the ranks 1..N in order
(dense, no gaps, no duplicates) and its final scores are monotonically
non-increasing as rank increases. -/
theorem c3_ranks_dense_and_scores_monotone (strategy : RankingStrategy)
    (candidates : List CandInput) (knownDrugs : Option (List String))
    (topN : Option Nat) :
    (rankCandidates strategy candidates knownDrugs topN).map (fun c => c.rank) =
      List.range' 1 (rankCandidates strategy candidates knownDrugs topN).length ∧
    List.Pairwise (fun a b => b.finalScore ≤ a.finalScore)
      (rankCandidates strategy candidates knownDrugs topN) := by
  set sorted := List.insertionSort finalLE (candidates.map (toRanked strategy knownDrugs))
    with hsorted
  have hranks : (assignRanks 1 sorted).map (fun c => c.rank) =
      List.range' 1 sorted.length := assignRanks_map_rank sorted 1
  have hpair : List.Pairwise finalLE (assignRanks 1 sorted) := by
    rw [pairwise_finalLE_iff, assignRanks_map_final, ← pairwise_finalLE_iff]
    exact List.sorted_insertionSort finalLE _
  constructor
  · unfold rankCandidates applyTopN
    rw [← hsorted]
    rcases topN with _ | n
    · dsimp only
      rw [hranks, assignRanks_length]
    · dsimp only
      by_cases hn : n = 0
      · subst hn
        rw [if_pos rfl, hranks, assignRanks_length]
      · rw [if_neg hn, List.map_take, hranks, take_range, List.length_take,
          assignRanks_length]
  · unfold rankCandidates applyTopN
    rw [← hsorted]
    rcases topN with _ | n
    · exact hpair
    · dsimp only
      by_cases hn : n = 0
      · subst hn
        rw [if_pos rfl]; exact hpair
      · rw [if_neg hn]
        exact hpair.sublist (List.take_sublist _ _)

end Ranker

/-! ## Evidence Validator (`src/kg/evidence_validator.py`)

Claim C10: the drug-validation call.
-/

namespace Validator

/-- Embedding of the `ValidationDecision` enum (lines 22-26). -/
inductive ValidationDecision where
  | keep
  | reject
  | review
deriving Repr, DecidableEq

/-- Embedding of the `ValidationResult` dataclass (lines 29-40); the
evidence-score dictionary is an association list. -/
structure ValidationResult where
  decision : ValidationDecision
  confidence : ℚ
  reasoning : String
  evidenceScores : List (String × ℚ)
  flags : List String
deriving Repr, DecidableEq

/-- Embedding of `EvidenceValidator.validate_drug` (lines 163-260). -/
def validateDrug (drugName : String) (phase : Int) (hasClinicalEvidence : Bool)
    (mechanismKnown : Bool := true)
    (safetyFlags : Option (List String) := none) : ValidationResult :=
  let evidenceScores : List (String × ℚ) :=
    [("phase", (phase : ℚ)),
     ("clinical_evidence", if hasClinicalEvidence then 1 else 0),
     ("mechanism_known", if mechanismKnown then 1 else 1 / 2)]
  let flags := safetyFlags.getD []
  if phase < 1 ∧ ¬ hasClinicalEvidence then
    { decision := .reject
      confidence := 9 / 10
      reasoning := "Drug " ++ drugName ++ " is preclinical with no clinical evidence"
      evidenceScores := evidenceScores
      flags := ["preclinical", "no_evidence"] }
  else
    let flags := flags ++ (if ¬ hasClinicalEvidence then ["no_clinical_evidence"] else [])
    let flags := flags ++ (if ¬ mechanismKnown then ["unknown_mechanism"] else [])
    let confidence : ℚ :=
      1 / 2 + (phase : ℚ) * (1 / 10) +
      (if hasClinicalEvidence then 2 / 10 else 0) +
      (if mechanismKnown then 1 / 10 else 0)
    let confidence := min confidence 1
    if confidence < 3 / 10 then
      { decision := .reject
        confidence := confidence
        reasoning := "Drug " ++ drugName ++ " has insufficient evidence (confidence " ++
          Scoring.formatFixed1 confidence ++ ")"
        evidenceScores := evidenceScores
        flags := flags }
    else if confidence < 6 / 10 then
      { decision := .review
        confidence := confidence
        reasoning := "Drug " ++ drugName ++ " flagged for review (confidence " ++
          Scoring.formatFixed1 confidence ++ ")"
        evidenceScores := evidenceScores
        flags := flags }
    else
      { decision := .keep
        confidence := confidence
        reasoning := "Drug " ++ drugName ++ " validated with confidence " ++
          Scoring.formatFixed1 confidence
        evidenceScores := evidenceScores
        flags := flags }

/-- Claim C10: for phases 0-4, `validate_drug` rejects exactly the
preclinical candidates without clinical evidence; on every other input
the computed confidence is at least 0.5, so the low-confidence reject
branch is unreachable and the decision is KEEP or REVIEW. -/
theorem c10_validate_drug_reject_iff (drugName : String) (phase : Int)
    (hasClinicalEvidence mechanismKnown : Bool)
    (safetyFlags : Option (List String))
    (h0 : 0 ≤ phase) (h4 : phase ≤ 4) :
    ((validateDrug drugName phase hasClinicalEvidence mechanismKnown
        safetyFlags).decision = .reject ↔
      (phase < 1 ∧ hasClinicalEvidence = false)) ∧
    ((1 ≤ phase ∨ hasClinicalEvidence = true) →
      1 / 2 ≤ (validateDrug drugName phase hasClinicalEvidence mechanismKnown
        safetyFlags).confidence ∧
      ((validateDrug drugName phase hasClinicalEvidence mechanismKnown
          safetyFlags).decision = .keep ∨
       (validateDrug drugName phase hasClinicalEvidence mechanismKnown
          safetyFlags).decision = .review)) := by
  unfold validateDrug
  by_cases hpre : phase < 1 ∧ ¬ hasClinicalEvidence
  · rw [if_pos hpre]
    constructor
    · simp only [true_iff]
      exact ⟨hpre.1, by simpa using hpre.2⟩
    · rintro (hp | hc)
      · exact absurd hpre.1 (by omega)
      · exact absurd hc (by simpa using hpre.2)
  · rw [if_neg hpre]
    have hphase : (0 : ℚ) ≤ (phase : ℚ) * (1 / 10) := by
      have : (0 : ℚ) ≤ (phase : ℚ) := by exact_mod_cast h0
      linarith
    have hce : (0 : ℚ) ≤ if hasClinicalEvidence then 2 / 10 else 0 := by
      split_ifs <;> norm_num
    have hmech : (0 : ℚ) ≤ if mechanismKnown then 1 / 10 else 0 := by
      split_ifs <;> norm_num
    have hconf : 1 / 2 ≤ min (1 / 2 + (phase : ℚ) * (1 / 10) +
        (if hasClinicalEvidence then 2 / 10 else 0) +
        (if mechanismKnown then 1 / 10 else 0)) 1 := by
      refine le_min (by linarith) (by norm_num)
    rw [if_neg (by intro h; linarith)]
    by_cases hrev : min (1 / 2 + (phase : ℚ) * (1 / 10) +
        (if hasClinicalEvidence then 2 / 10 else 0) +
        (if mechanismKnown then 1 / 10 else 0)) 1 < 6 / 10
    · rw [if_pos hrev]
      refine ⟨⟨fun h => by simp at h, ?_⟩, fun _ => ⟨hconf, Or.inr rfl⟩⟩
      rintro ⟨hph, hcef⟩
      exact absurd ⟨hph, by simp [hcef]⟩ hpre
    · rw [if_neg hrev]
      refine ⟨⟨fun h => by simp at h, ?_⟩, fun _ => ⟨hconf, Or.inl rfl⟩⟩
      rintro ⟨hph, hcef⟩
      exact absurd ⟨hph, by simp [hcef]⟩ hpre

/-- Witness instantiating claim C10 at an approved drug with clinical
evidence. -/
theorem c10_validate_drug_reject_iff_witness :
    ((validateDrug "Metformin" 4 true true none).decision = .reject ↔
      ((4 : Int) < 1 ∧ true = false)) ∧
    ((1 ≤ (4 : Int) ∨ true = true) →
      1 / 2 ≤ (validateDrug "Metformin" 4 true true none).confidence ∧
      ((validateDrug "Metformin" 4 true true none).decision = .keep ∨
       (validateDrug "Metformin" 4 true true none).decision = .review)) :=
  c10_validate_drug_reject_iff "Metformin" 4 true true none (by norm_num) (by norm_num)

end Validator

/-! ## Orchestrator (`src/orchestrator/route_a_graph.py`)

Claims C5 and C6.  The LangGraph state machine of `create_route_a_graph`
is modelled as a routing function over node names, driven by a
fuel-bounded runner.  The agent nodes (web_intel, literature, kg,
expand_search, clinical_trials, patents, exim, rank_and_select,
generate_report) perform network I/O, so they are abstracted as
arbitrary state transformers; `normalize_input` and the two routing
functions `should_abort_pipeline` / `should_expand_search` are embedded
concretely, with the disease resolver's network response supplied as a
function argument.
-/

namespace Orchestrator

/-- Embedding of the `RunStatus` enum (src/backend/app/schemas.py
lines 53-58). -/
inductive RunStatus where
  | queued
  | running
  | succeeded
  | failed
deriving Repr, DecidableEq

/-- Disease context produced by `resolve_disease_deterministic`, with the
fields `normalize_input` reads. -/
structure DiseaseContext where
  correctedName : String
  efoId : Option String
  mondoId : Option String
  meshId : Option String
  therapeuticArea : String
  synonyms : List String
deriving Repr, DecidableEq

/-- Candidate entry of the kg output; only its presence matters to the
routing functions. -/
structure KGCandidate where
  name : String
deriving Repr, DecidableEq

/-- Orchestrator state: the `dict` keys of the Route A state that
`normalize_input`, `should_abort_pipeline` and `should_expand_search`
read or write. -/
structure OrchState where
  indication : String
  geography : String
  status : RunStatus
  errorMessage : Option String
  diseaseContext : Option DiseaseContext
  diseaseId : Option String
  diseaseSynonyms : List String
  kgOutput : Option (List KGCandidate)
deriving Repr, DecidableEq

/-- Python truthiness of an optional string (`None` and `""` are falsy). -/
def optTruthy (o : Option String) : Bool :=
  match o with
  | none => false
  | some s => s ≠ ""

/-- Model of Python `a or b` on optional strings. -/
def pyOr (a b : Option String) : Option String :=
  if optTruthy a then a else b

/-- Python `str.isalpha()` on a character list (non-empty, all letters). -/
def pyIsAlpha (l : List Char) : Bool := !l.isEmpty && l.all (fun c => c.isAlpha)

/-- Python `str.isdigit()` on a character list (non-empty, all digits). -/
def pyIsDigit (l : List Char) : Bool := !l.isEmpty && l.all (fun c => c.isDigit)

/-- Insertion of `"_"` before the first digit, mirroring the loop of
`normalize_disease_id`; `none` when no digit occurs. -/
def insertUnderscore : List Char → Option (List Char)
  | [] => none
  | c :: rest =>
    if c.isDigit then some ('_' :: c :: rest)
    else (insertUnderscore rest).map (fun l => c :: l)

/-- Well-formedness test of `normalize_disease_id`: exactly one
underscore, alphabetic prefix, numeric suffix. -/
def diseaseIdWellFormed (cs : List Char) : Bool :=
  if cs.count '_' = 1 then
    pyIsAlpha (cs.takeWhile (fun c => c ≠ '_')) &&
    pyIsDigit ((cs.dropWhile (fun c => c ≠ '_')).drop 1)
  else false

/-- Embedding of `normalize_disease_id`
(src/orchestrator/route_a_graph.py lines 21-38). -/
def normalizeDiseaseId (diseaseId : String) : String :=
  if diseaseId = "" then diseaseId
  else if diseaseIdWellFormed diseaseId.data then diseaseId
  else
    match insertUnderscore (diseaseId.data.filter (fun c => c ≠ ':' && c ≠ '_')) with
    | some l => ⟨l⟩
    | none => diseaseId

/-- Embedding of `normalize_input` (lines 41-77), with the network call
`resolve_disease_deterministic` supplied as `resolver`. -/
def normalizeInput (resolver : String → Option DiseaseContext)
    (s : OrchState) : OrchState :=
  match resolver s.indication with
  | none =>
    { s with
      diseaseContext := none
      diseaseId := none
      status := .failed
      errorMessage := some ("Could not resolve disease: " ++ s.indication) }
  | some dc =>
    match pyOr (pyOr dc.efoId dc.mondoId) dc.meshId with
    | none =>
      { s with
        diseaseContext := none
        diseaseId := none
        status := .failed
        errorMessage := some ("No ontology ID found for: " ++ s.indication) }
    | some raw =>
      if raw = "" then
        { s with
          diseaseContext := none
          diseaseId := none
          status := .failed
          errorMessage := some ("No ontology ID found for: " ++ s.indication) }
      else
        { s with
          diseaseContext := some dc
          diseaseId := some (normalizeDiseaseId raw)
          indication := dc.correctedName
          diseaseSynonyms := dc.synonyms }

/-- Resolution failure as `normalize_input` detects it: no resolver
match, or no (truthy) ontology ID among EFO/MONDO/MeSH. -/
def resolutionFailed (r : Option DiseaseContext) : Bool :=
  match r with
  | none => true
  | some dc => !optTruthy (pyOr (pyOr dc.efoId dc.mondoId) dc.meshId)

/-- Embedding of `should_abort_pipeline` (lines 384-394); returns `true`
for "abort". -/
def shouldAbort (s : OrchState) : Bool :=
  (match s.diseaseContext with
   | none => true
   | some _ => false) ||
  !optTruthy s.diseaseId

/-- Embedding of `should_expand_search` (lines 397-411); returns `true`
for "expand". -/
def shouldExpand (s : OrchState) : Bool :=
  match s.kgOutput with
  | none => true
  | some kg => decide (kg.length < 3)

/-- Node names of `create_route_a_graph` (lines 487-537). -/
inductive Node where
  | normalizeInput
  | webIntelligence
  | literature
  | kg
  | expandSearch
  | clinicalTrials
  | patents
  | exim
  | rankAndSelect
  | generateReport
deriving Repr, DecidableEq

/-- The agent nodes as abstract state transformers (they perform network
I/O; the claims hold for any behaviour of theirs). -/
structure Handlers where
  webIntel : OrchState → OrchState
  literature : OrchState → OrchState
  kg : OrchState → OrchState
  expandSearch : OrchState → OrchState
  clinicalTrials : OrchState → OrchState
  patents : OrchState → OrchState
  eximTrends : OrchState → OrchState
  rankAndSelect : OrchState → OrchState
  generateReport : OrchState → OrchState

/-- Node execution. -/
def applyNode (h : Handlers) (resolver : String → Option DiseaseContext) :
    Node → OrchState → OrchState
  | .normalizeInput, s => normalizeInput resolver s
  | .webIntelligence, s => h.webIntel s
  | .literature, s => h.literature s
  | .kg, s => h.kg s
  | .expandSearch, s => h.expandSearch s
  | .clinicalTrials, s => h.clinicalTrials s
  | .patents, s => h.patents s
  | .exim, s => h.eximTrends s
  | .rankAndSelect, s => h.rankAndSelect s
  | .generateReport, s => h.generateReport s

/-- Edges and conditional edges of `create_route_a_graph` (lines
487-537): the successor of a node given the state after running it
(`none` is END). -/
def nextNode : Node → OrchState → Option Node
  | .normalizeInput, s => if shouldAbort s then none else some .webIntelligence
  | .webIntelligence, _ => some .literature
  | .literature, _ => some .kg
  | .kg, s => if shouldExpand s then some .expandSearch else some .clinicalTrials
  | .expandSearch, _ => some .clinicalTrials
  | .clinicalTrials, _ => some .patents
  | .patents, _ => some .exim
  | .exim, _ => some .rankAndSelect
  | .rankAndSelect, _ => some .generateReport
  | .generateReport, _ => none

/-- Fuel-bounded graph runner: executes from a node, returning the final
state and the list of executed nodes.  Fuel 12 exceeds the graph's
longest path (10 nodes), so the bound is never hit. -/
def runFrom (h : Handlers) (resolver : String → Option DiseaseContext) :
    Nat → Node → OrchState → OrchState × List Node
  | 0, _, s => (s, [])
  | fuel + 1, n, s =>
    let s2 := applyNode h resolver n s
    match nextNode n s2 with
    | none => (s2, [n])
    | some m =>
      let r := runFrom h resolver fuel m s2
      (r.1, n :: r.2)

/-- A full run of the compiled Route A graph from its entry point. -/
def runGraph (h : Handlers) (resolver : String → Option DiseaseContext)
    (s0 : OrchState) : OrchState × List Node :=
  runFrom h resolver 12 .normalizeInput s0

end Orchestrator


namespace Orchestrator

/-- Characterization of a full run: the graph either aborts right after
`normalize_input`, or runs the linear pipeline with `expand_search`
spliced in exactly when `should_expand_search` fires after `kg`. -/
theorem runGraph_char (h : Handlers) (resolver : String → Option DiseaseContext)
    (s0 : OrchState) :
    runGraph h resolver s0 =
      (let s1 := normalizeInput resolver s0
       if shouldAbort s1 then (s1, [Node.normalizeInput])
       else
         let s4 := h.kg (h.literature (h.webIntel s1))
         if shouldExpand s4 then
           (h.generateReport (h.rankAndSelect (h.eximTrends (h.patents
              (h.clinicalTrials (h.expandSearch s4))))),
            [Node.normalizeInput, Node.webIntelligence, Node.literature, Node.kg,
             Node.expandSearch, Node.clinicalTrials, Node.patents, Node.exim,
             Node.rankAndSelect, Node.generateReport])
         else
           (h.generateReport (h.rankAndSelect (h.eximTrends (h.patents
              (h.clinicalTrials s4)))),
            [Node.normalizeInput, Node.webIntelligence, Node.literature, Node.kg,
             Node.clinicalTrials, Node.patents, Node.exim,
             Node.rankAndSelect, Node.generateReport])) := by
  cases hab : shouldAbort (normalizeInput resolver s0)
  · cases hex : shouldExpand (h.kg (h.literature (h.webIntel (normalizeInput resolver s0))))
    · simp [runGraph, runFrom, applyNode, nextNode, hab, hex]
    · simp [runGraph, runFrom, applyNode, nextNode, hab, hex]
  · simp [runGraph, runFrom, applyNode, nextNode, hab]

theorem insertUnderscore_ne_nil {l r : List Char}
    (h : insertUnderscore l = some r) : r ≠ [] := by
  induction l generalizing r with
  | nil => cases h
  | cons c rest ih =>
    unfold insertUnderscore at h
    split_ifs at h with hd
    · cases h
      exact List.cons_ne_nil _ _
    · rcases hmap : insertUnderscore rest with _ | l2
      · rw [hmap] at h; cases h
      · rw [hmap] at h
        simp only [Option.map_some'] at h
        cases h
        exact List.cons_ne_nil _ _

theorem normalizeDiseaseId_ne_empty {sId : String} (hne : sId ≠ "") :
    normalizeDiseaseId sId ≠ "" := by
  unfold normalizeDiseaseId
  rw [if_neg hne]
  split_ifs
  · exact hne
  · rcases hins : insertUnderscore (sId.data.filter (fun c => c ≠ ':' && c ≠ '_'))
      with _ | l
    · exact hne
    · show ({ data := l } : String) ≠ ""
      have hnil := insertUnderscore_ne_nil hins
      intro hcontra
      apply hnil
      simpa using congrArg String.data hcontra

/-- The abort decision after `normalize_input` is exactly the resolution
failure of the disease resolver. -/
theorem shouldAbort_normalize_eq (resolver : String → Option DiseaseContext)
    (s0 : OrchState) :
    shouldAbort (normalizeInput resolver s0) =
      resolutionFailed (resolver s0.indication) := by
  unfold normalizeInput resolutionFailed
  rcases hres : resolver s0.indication with _ | dc
  · simp [shouldAbort, optTruthy]
  · rcases hraw : pyOr (pyOr dc.efoId dc.mondoId) dc.meshId with _ | raw
    · simp [shouldAbort, optTruthy, hraw]
    · by_cases hr : raw = ""
      · simp [shouldAbort, optTruthy, hraw, hr]
      · simp [shouldAbort, optTruthy, hraw, hr, normalizeDiseaseId_ne_empty hr]

/-- On resolution failure, `normalize_input` marks the run FAILED with an
error message. -/
theorem normalizeInput_failed (resolver : String → Option DiseaseContext)
    (s0 : OrchState)
    (hfail : resolutionFailed (resolver s0.indication) = true) :
    (normalizeInput resolver s0).status = .failed ∧
    (normalizeInput resolver s0).errorMessage.isSome = true := by
  unfold resolutionFailed at hfail
  rcases hres : resolver s0.indication with _ | dc
  · simp [normalizeInput, hres]
  · rw [hres] at hfail
    dsimp only at hfail
    rcases hraw : pyOr (pyOr dc.efoId dc.mondoId) dc.meshId with _ | raw
    · simp [normalizeInput, hres, hraw]
    · rw [hraw] at hfail
      have hr : raw = "" := by simpa [optTruthy] using hfail
      simp [normalizeInput, hres, hraw, hr]

/-- Claim C5: if disease resolution returns no match or yields no
ontology ID, the run ends with status FAILED and a populated
error_message, and `normalize_input` is the only node that executes — no
later pipeline stage runs. -/
theorem c5_resolution_failure_aborts (h : Handlers)
    (resolver : String → Option DiseaseContext) (s0 : OrchState)
    (hfail : resolutionFailed (resolver s0.indication) = true) :
    (runGraph h resolver s0).1.status = .failed ∧
    (runGraph h resolver s0).1.errorMessage.isSome = true ∧
    (runGraph h resolver s0).2 = [Node.normalizeInput] := by
  have hab : shouldAbort (normalizeInput resolver s0) = true := by
    rw [shouldAbort_normalize_eq]; exact hfail
  obtain ⟨h1, h2⟩ := normalizeInput_failed resolver s0 hfail
  rw [runGraph_char]
  simp only [hab, if_true]
  exact ⟨h1, h2, trivial⟩

/-- The expand decision after `kg` is exactly the claim's condition:
no kg output at all, or fewer than 3 candidates. -/
theorem shouldExpand_iff (s : OrchState) :
    shouldExpand s = true ↔
      (s.kgOutput = none ∨ ∃ kg, s.kgOutput = some kg ∧ kg.length < 3) := by
  unfold shouldExpand
  rcases h : s.kgOutput with _ | kg
  · simp
  · simp

/-- Claim C6: when resolution succeeds, `expand_search` executes exactly
once if `kg` leaves fewer than 3 candidates (or no kg output at all), and
never otherwise; when it executes, it is immediately followed by
`clinical_trials`, and the rest of the pipeline runs in order. -/
theorem c6_expand_search_exactly_once (h : Handlers)
    (resolver : String → Option DiseaseContext) (s0 : OrchState)
    (hok : resolutionFailed (resolver s0.indication) = false) :
    ((runGraph h resolver s0).2.count Node.expandSearch =
      if shouldExpand (h.kg (h.literature (h.webIntel (normalizeInput resolver s0))))
      then 1 else 0) ∧
    (shouldExpand (h.kg (h.literature (h.webIntel (normalizeInput resolver s0)))) = true →
      (runGraph h resolver s0).2 =
        [Node.normalizeInput, Node.webIntelligence, Node.literature, Node.kg,
         Node.expandSearch, Node.clinicalTrials, Node.patents, Node.exim,
         Node.rankAndSelect, Node.generateReport]) ∧
    (shouldExpand (h.kg (h.literature (h.webIntel (normalizeInput resolver s0)))) = false →
      (runGraph h resolver s0).2 =
        [Node.normalizeInput, Node.webIntelligence, Node.literature, Node.kg,
         Node.clinicalTrials, Node.patents, Node.exim,
         Node.rankAndSelect, Node.generateReport]) ∧
    (shouldExpand (h.kg (h.literature (h.webIntel (normalizeInput resolver s0)))) = true ↔
      ((h.kg (h.literature (h.webIntel (normalizeInput resolver s0)))).kgOutput = none ∨
       ∃ kg, (h.kg (h.literature (h.webIntel (normalizeInput resolver s0)))).kgOutput =
          some kg ∧ kg.length < 3)) := by
  have hab : shouldAbort (normalizeInput resolver s0) = false := by
    rw [shouldAbort_normalize_eq]; exact hok
  rw [runGraph_char]
  simp only [hab, Bool.false_eq_true, if_false]
  refine ⟨?_, ?_, ?_, shouldExpand_iff _⟩
  · by_cases hc : shouldExpand
        (h.kg (h.literature (h.webIntel (normalizeInput resolver s0)))) = true
    · rw [if_pos hc, if_pos hc]; rfl
    · rw [if_neg hc, if_neg hc]; rfl
  · intro hex
    rw [if_pos hex]
  · intro hex
    have hnot : ¬ shouldExpand
        (h.kg (h.literature (h.webIntel (normalizeInput resolver s0)))) = true := by
      rw [hex]; simp
    rw [if_neg hnot]

end Orchestrator

namespace Orchestrator

/-- Handlers that leave the state unchanged, except that the kg node
records an empty candidate list (as the expanded-search fallback does on
failure). -/
def witnessHandlers : Handlers :=
  { webIntel := id, literature := id,
    kg := fun s => { s with kgOutput := some [] },
    expandSearch := id, clinicalTrials := id, patents := id,
    eximTrends := id, rankAndSelect := id, generateReport := id }

/-- Initial state of a queued run, as the task runner seeds it. -/
def witnessState : OrchState :=
  { indication := "asthma", geography := "US", status := .queued,
    errorMessage := none, diseaseContext := none, diseaseId := none,
    diseaseSynonyms := [], kgOutput := none }

/-- Resolver response for a successful deterministic resolution. -/
def witnessContext : DiseaseContext :=
  { correctedName := "asthma", efoId := some "EFO:0000270", mondoId := none,
    meshId := none, therapeuticArea := "respiratory", synonyms := ["bronchial asthma"] }

/-- Witness instantiating claim C5 at a resolver that finds no match. -/
theorem c5_resolution_failure_aborts_witness :
    resolutionFailed ((fun _ => none) witnessState.indication) = true ∧
    ((runGraph witnessHandlers (fun _ => none) witnessState).1.status = .failed ∧
     (runGraph witnessHandlers (fun _ => none) witnessState).1.errorMessage.isSome = true ∧
     (runGraph witnessHandlers (fun _ => none) witnessState).2 = [Node.normalizeInput]) :=
  ⟨by decide,
   c5_resolution_failure_aborts witnessHandlers (fun _ => none) witnessState (by decide)⟩

/-- Witness instantiating claim C6 at a successful resolution whose kg
stage yields zero candidates, so `expand_search` runs exactly once. -/
theorem c6_expand_search_exactly_once_witness :
    resolutionFailed ((fun _ => some witnessContext) witnessState.indication) = false ∧
    (((runGraph witnessHandlers (fun _ => some witnessContext) witnessState).2.count
        Node.expandSearch =
      if shouldExpand (witnessHandlers.kg (witnessHandlers.literature
        (witnessHandlers.webIntel
          (normalizeInput (fun _ => some witnessContext) witnessState))))
      then 1 else 0) ∧
     (shouldExpand (witnessHandlers.kg (witnessHandlers.literature
        (witnessHandlers.webIntel
          (normalizeInput (fun _ => some witnessContext) witnessState)))) = true →
       (runGraph witnessHandlers (fun _ => some witnessContext) witnessState).2 =
         [Node.normalizeInput, Node.webIntelligence, Node.literature, Node.kg,
          Node.expandSearch, Node.clinicalTrials, Node.patents, Node.exim,
          Node.rankAndSelect, Node.generateReport]) ∧
     (shouldExpand (witnessHandlers.kg (witnessHandlers.literature
        (witnessHandlers.webIntel
          (normalizeInput (fun _ => some witnessContext) witnessState)))) = false →
       (runGraph witnessHandlers (fun _ => some witnessContext) witnessState).2 =
         [Node.normalizeInput, Node.webIntelligence, Node.literature, Node.kg,
          Node.clinicalTrials, Node.patents, Node.exim,
          Node.rankAndSelect, Node.generateReport]) ∧
     (shouldExpand (witnessHandlers.kg (witnessHandlers.literature
        (witnessHandlers.webIntel
          (normalizeInput (fun _ => some witnessContext) witnessState)))) = true ↔
       ((witnessHandlers.kg (witnessHandlers.literature (witnessHandlers.webIntel
          (normalizeInput (fun _ => some witnessContext) witnessState)))).kgOutput =
            none ∨
        ∃ kg, (witnessHandlers.kg (witnessHandlers.literature (witnessHandlers.webIntel
          (normalizeInput (fun _ => some witnessContext) witnessState)))).kgOutput =
            some kg ∧ kg.length < 3))) :=
  ⟨by decide,
   c6_expand_search_exactly_once witnessHandlers (fun _ => some witnessContext)
     witnessState (by decide)⟩

end Orchestrator

/-! ## EXIM agent (`src/agents/exim.py`)

Claim C9.  The web search is modelled by its decoded hits.  The Python
code accumulates `countries_found` as a dict in first-mention order; the
model builds the same country→count mapping in the fixed
`target_countries` order.  The key set and counts are identical, and the
theorems below depend only on membership and emptiness of the counted
set, which are invariant under the sorting order.  The cache short-cut
and the exception fallback of `run_exim_trends` are outside the modelled
success path.
-/

namespace Exim

/-- Embedding of the `SourcingSignal` enum
(src/backend/app/schemas.py lines 46-51). -/
inductive SourcingSignal where
  | weak
  | moderate
  | strong
  | unknown
deriving Repr, DecidableEq

/-- Decoded web-search hit (`res.get("snippet")`, `res.get("title")`). -/
structure SearchHit where
  title : String
  snippet : String
deriving Repr, DecidableEq

/-- Embedding of the `EximOutput` schema fields the agent fills. -/
structure EximOutput where
  candidate : String
  sourcingSignal : SourcingSignal
  topPartnerCountries : List String
  dependencyFlags : List String
  notes : String
deriving Repr, DecidableEq

/-- The fixed `target_countries` list (src/agents/exim.py line 31). -/
def targetCountries : List String :=
  ["China", "India", "USA", "Europe", "Germany", "Italy"]

/-- Lowercased snippet-plus-title text scanned for country names
(lines 34-37). -/
def hitText (r : SearchHit) : String :=
  PyStr.lower r.snippet ++ " " ++ PyStr.lower r.title

/-- Number of hits mentioning a country (the per-country counter of
lines 38-40). -/
def countFor (results : List SearchHit) (c : String) : Nat :=
  (results.filter (fun r => PyStr.strContains (hitText r) (PyStr.lower c))).length

/-- The `countries_found` mapping as an association list (country,
mention count), countries with zero mentions absent. -/
def countriesFound (results : List SearchHit) : List (String × Nat) :=
  targetCountries.filterMap (fun c =>
    if countFor results c = 0 then none else some (c, countFor results c))

/-- Descending order on mention counts, as used by
`sorted(countries_found.items(), key=lambda x: x[1], reverse=True)`. -/
def countLE (a b : String × Nat) : Prop := b.2 ≤ a.2

instance : DecidableRel countLE := fun a b => by
  unfold countLE; infer_instance

instance : IsTotal (String × Nat) countLE :=
  ⟨fun a b => le_total b.2 a.2⟩

instance : IsTrans (String × Nat) countLE :=
  ⟨fun _ _ _ hab hbc => le_trans hbc hab⟩

/-- The `top_partners_list`: names of the five most-mentioned countries
(lines 43-44). -/
def topPartnersList (results : List SearchHit) : List String :=
  (((countriesFound results).insertionSort countLE).take 5).map Prod.fst

/-- Embedding of the signal-inference and output assembly of
`run_exim_trends` (lines 46-70). -/
def runEximTrends (candidateName : String) (results : List SearchHit) : EximOutput :=
  let topPartners := topPartnersList results
  let signal0 : SourcingSignal :=
    if results.length > 0 then
      (if topPartners.contains "China" || topPartners.contains "India" then
        .strong
      else .moderate)
    else .weak
  let notes0 : List String :=
    if results.length > 0 &&
        (topPartners.contains "China" || topPartners.contains "India") then
      ["Strong presence in major API manufacturing hubs"]
    else []
  let signal := if topPartners.isEmpty then .unknown else signal0
  let notes :=
    if topPartners.isEmpty then
      notes0 ++ ["No specific sourcing countries identified"]
    else notes0
  { candidate := candidateName
    sourcingSignal := signal
    topPartnerCountries := topPartners
    dependencyFlags :=
      if topPartners.contains "China" then ["Potential reliance on Asian markets"]
      else []
    notes := Scoring.joinComma notes }

/-- Signal rule exactly as claim C9 words it, for comparison with the
code: STRONG when China or India is among the counted country mentions,
MODERATE if any country appears, WEAK otherwise, UNKNOWN if the search
returned no hits. -/
def claimedSignal (results : List SearchHit) : SourcingSignal :=
  let counted := (countriesFound results).map Prod.fst
  if results.isEmpty then .unknown
  else if counted.contains "China" || counted.contains "India" then .strong
  else if ¬ counted.isEmpty then .moderate
  else .weak

/-- Amended signal rule: as the claim, except that UNKNOWN is returned
whenever no country is counted — also when the search returned hits —
and WEAK never occurs. -/
def amendedSignal (results : List SearchHit) : SourcingSignal :=
  let counted := (countriesFound results).map Prod.fst
  if counted.isEmpty then .unknown
  else if counted.contains "China" || counted.contains "India" then .strong
  else .moderate

end Exim


namespace Exim

theorem results_ne_nil_of_counted {results : List SearchHit}
    (h : countriesFound results ≠ []) : results.length > 0 := by
  obtain ⟨p, hp⟩ := List.exists_mem_of_ne_nil _ h
  unfold countriesFound at hp
  rw [List.mem_filterMap] at hp
  obtain ⟨c, -, heq⟩ := hp
  by_cases h0 : countFor results c = 0
  · rw [if_pos h0] at heq
    cases heq
  · have hle := List.length_filter_le
      (fun r => PyStr.strContains (hitText r) (PyStr.lower c)) results
    unfold countFor at h0
    omega

theorem map_fst_countriesFound_sublist (results : List SearchHit) :
    List.Sublist ((countriesFound results).map Prod.fst) targetCountries := by
  unfold countriesFound
  induction targetCountries with
  | nil => simp
  | cons c rest ih =>
    rw [List.filterMap_cons]
    by_cases h0 : countFor results c = 0
    · rw [if_pos h0]
      exact ih.cons c
    · rw [if_neg h0]
      simpa using ih.cons₂ c

theorem mem_topPartnersList {results : List SearchHit} {x : String}
    (hx : x ∈ topPartnersList results) :
    x ∈ (countriesFound results).map Prod.fst := by
  unfold topPartnersList at hx
  rw [List.mem_map] at hx
  obtain ⟨p, hp, rfl⟩ := hx
  exact List.mem_map_of_mem Prod.fst
    ((List.perm_insertionSort countLE _).mem_iff.mp (List.mem_of_mem_take hp))

/-- Pigeonhole step: if China or India has a nonzero mention count, one
of them survives the take-5 truncation — at most one of the six target
countries can be dropped. -/
theorem china_india_in_top {results : List SearchHit}
    (h : "China" ∈ (countriesFound results).map Prod.fst ∨
         "India" ∈ (countriesFound results).map Prod.fst) :
    "China" ∈ topPartnersList results ∨ "India" ∈ topPartnersList results := by
  have hperm := List.perm_insertionSort countLE (countriesFound results)
  by_cases h5 : ((countriesFound results).insertionSort countLE).length ≤ 5
  · have htake := List.take_of_length_le h5
    rcases h with hc | hc
    · left
      unfold topPartnersList
      rw [htake, List.mem_map]
      rw [List.mem_map] at hc
      obtain ⟨p, hp, he⟩ := hc
      exact ⟨p, hperm.mem_iff.mpr hp, he⟩
    · right
      unfold topPartnersList
      rw [htake, List.mem_map]
      rw [List.mem_map] at hc
      obtain ⟨p, hp, he⟩ := hc
      exact ⟨p, hperm.mem_iff.mpr hp, he⟩
  · have hlen6 : (countriesFound results).length ≤ 6 := by
      have hfm := List.length_filterMap_le
        (fun c => if countFor results c = 0 then none else some (c, countFor results c))
        targetCountries
      simpa [countriesFound, targetCountries] using hfm
    have hlen := hperm.length_eq
    have heq : (countriesFound results).map Prod.fst = targetCountries := by
      apply (map_fst_countriesFound_sublist results).eq_of_length
      rw [List.length_map]
      simp only [targetCountries, List.length_cons, List.length_nil]
      omega
    have hChina : ∃ p ∈ countriesFound results, Prod.fst p = "China" := by
      have hm : "China" ∈ (countriesFound results).map Prod.fst := by
        rw [heq]; simp [targetCountries]
      rw [List.mem_map] at hm
      exact hm
    have hIndia : ∃ p ∈ countriesFound results, Prod.fst p = "India" := by
      have hm : "India" ∈ (countriesFound results).map Prod.fst := by
        rw [heq]; simp [targetCountries]
      rw [List.mem_map] at hm
      exact hm
    obtain ⟨p, hp, hpc⟩ := hChina
    obtain ⟨q, hq, hqc⟩ := hIndia
    have hpq : p ≠ q := by
      intro he
      rw [he, hqc] at hpc
      exact absurd hpc (by decide)
    have hp2 : p ∈ (countriesFound results).insertionSort countLE := hperm.mem_iff.mpr hp
    have hq2 : q ∈ (countriesFound results).insertionSort countLE := hperm.mem_iff.mpr hq
    have hdrop : (((countriesFound results).insertionSort countLE).drop 5).length ≤ 1 := by
      rw [List.length_drop]
      omega
    by_cases hpt : p ∈ ((countriesFound results).insertionSort countLE).take 5
    · left
      unfold topPartnersList
      rw [← hpc]
      exact List.mem_map_of_mem Prod.fst hpt
    · by_cases hqt : q ∈ ((countriesFound results).insertionSort countLE).take 5
      · right
        unfold topPartnersList
        rw [← hqc]
        exact List.mem_map_of_mem Prod.fst hqt
      · exfalso
        have hpd : p ∈ ((countriesFound results).insertionSort countLE).drop 5 := by
          have hsplit := List.mem_append.mp
            (List.take_append_drop 5 ((countriesFound results).insertionSort countLE) ▸ hp2)
          tauto
        have hqd : q ∈ ((countriesFound results).insertionSort countLE).drop 5 := by
          have hsplit := List.mem_append.mp
            (List.take_append_drop 5 ((countriesFound results).insertionSort countLE) ▸ hq2)
          tauto
        rcases hd : ((countriesFound results).insertionSort countLE).drop 5
          with _ | ⟨x, rest⟩
        · rw [hd] at hpd
          cases hpd
        · rw [hd] at hpd hqd hdrop
          have hrest : rest = [] := by
            simp only [List.length_cons] at hdrop
            exact List.eq_nil_of_length_eq_zero (by omega)
          subst hrest
          apply hpq
          have h1 := List.mem_singleton.mp hpd
          have h2 := List.mem_singleton.mp hqd
          rw [h1, h2]

/-- The strong-signal condition on the truncated top list matches the
claim's condition on the counted country mentions. -/
theorem china_india_top_iff (results : List SearchHit) :
    ("China" ∈ topPartnersList results ∨ "India" ∈ topPartnersList results) ↔
    ("China" ∈ (countriesFound results).map Prod.fst ∨
     "India" ∈ (countriesFound results).map Prod.fst) := by
  constructor
  · rintro (hc | hc)
    · exact Or.inl (mem_topPartnersList hc)
    · exact Or.inr (mem_topPartnersList hc)
  · exact china_india_in_top

end Exim


namespace Exim

/-- Search hit for the C9 counterexample: a result mentioning no target
country. -/
def c9Hit : SearchHit :=
  { title := "research update", snippet := "no sourcing information" }

/-- Claim C9 is false as stated: when the search returns hits that
mention no target country, the code first sets MODERATE (hits exist) and
then overrides to UNKNOWN because the partner list is empty — the
claimed WEAK is never produced on that path. -/
theorem c9_signal_counterexample :
    (runEximTrends "imatinib" [c9Hit]).sourcingSignal = SourcingSignal.unknown ∧
    claimedSignal [c9Hit] = SourcingSignal.weak ∧
    SourcingSignal.unknown ≠ SourcingSignal.weak := by
  refine ⟨by decide, by decide, by decide⟩

/-- For a list without the membership, `contains` is false. -/
theorem contains_eq_false_of_not_mem {l : List String} {a : String}
    (h : a ∉ l) : l.contains a = false := by
  rw [← Bool.not_eq_true]
  intro hc
  exact h (List.elem_iff.mp hc)

/-- Amended claim C9: the sourcing signal is STRONG when China or India
appears among the counted country mentions, MODERATE when some country
appears but neither of those two, and UNKNOWN when no country mention is
counted — whether or not the search returned hits.  WEAK is never
emitted on the success path. -/
theorem c9_signal_amended (candidateName : String) (results : List SearchHit) :
    (runEximTrends candidateName results).sourcingSignal = amendedSignal results := by
  unfold runEximTrends amendedSignal
  by_cases hempty : countriesFound results = []
  · have htl : topPartnersList results = [] := by
      unfold topPartnersList
      rw [hempty]
      rfl
    simp [htl, hempty]
  · have hres : results.length > 0 := results_ne_nil_of_counted hempty
    have htl : topPartnersList results ≠ [] := by
      unfold topPartnersList
      intro hcon
      rw [List.map_eq_nil_iff, List.take_eq_nil_iff] at hcon
      rcases hcon with h0 | hnil
      · cases h0
      · apply hempty
        have hl := (List.perm_insertionSort countLE (countriesFound results)).length_eq
        rw [hnil] at hl
        exact List.eq_nil_of_length_eq_zero hl.symm
    have hmapne : (countriesFound results).map Prod.fst ≠ [] :=
      fun hcon => hempty (List.map_eq_nil_iff.mp hcon)
    by_cases hci : ("China" ∈ (countriesFound results).map Prod.fst ∨
        "India" ∈ (countriesFound results).map Prod.fst)
    · have htop := (china_india_top_iff results).mpr hci
      have hc2 : (((countriesFound results).map Prod.fst).contains "China" ||
          ((countriesFound results).map Prod.fst).contains "India") = true := by
        rcases hci with hc | hc
        · simp only [Bool.or_eq_true]
          left
          rw [List.elem_iff]
          exact hc
        · simp only [Bool.or_eq_true]
          right
          rw [List.elem_iff]
          exact hc
      simp only [List.isEmpty_iff, htl, hmapne, hres]
      simp [List.isEmpty_iff, htl, hmapne, hres]
      rw [if_pos htop, if_pos hc2]
    · push_neg at hci
      have htop : ¬ ("China" ∈ topPartnersList results ∨
          "India" ∈ topPartnersList results) := by
        rw [not_or]
        constructor
        · intro hc
          exact hci.1 (mem_topPartnersList hc)
        · intro hc
          exact hci.2 (mem_topPartnersList hc)
      have hc2 : (((countriesFound results).map Prod.fst).contains "China" ||
          ((countriesFound results).map Prod.fst).contains "India") = false := by
        rw [Bool.or_eq_false_iff]
        exact ⟨contains_eq_false_of_not_mem hci.1, contains_eq_false_of_not_mem hci.2⟩
      have hc2n : ¬ ((((countriesFound results).map Prod.fst).contains "China" ||
          ((countriesFound results).map Prod.fst).contains "India") = true) := by
        rw [hc2]
        simp
      simp [List.isEmpty_iff, htl, hmapne, hres]
      rw [if_neg htop, if_neg hc2n]

end Exim

/-! ## Cache manager (`src/agents/base.py`)

Claim C7.  `CacheManager._hash_key` serializes `{"endpoint": endpoint,
"params": params}` with `json.dumps(..., sort_keys=True)` and hashes the
string with md5.  The model works with the canonical serialization
string itself: equal strings yield equal md5 digests, which is all the
determinism claim uses.  Parameter values at the call sites are JSON
scalars, modelled by `JVal`; JSON string escaping is not modelled (the
repository's parameter strings contain no escapes, and escaping is the
same deterministic function on both sides of the equality).  The file
store is modelled as an association list from key to the written
`{"data": ...}` wrapper.
-/

namespace Cache

/-- JSON scalar values appearing in cache parameters. -/
inductive JVal where
  | jstr (s : String)
  | jnum (n : Int)
  | jbool (b : Bool)
  | jnull
deriving Repr, DecidableEq

/-- A parameter dictionary, as an insertion-ordered association list. -/
abbrev Params := List (String × JVal)

/-- JSON serialization of a scalar value (CPython `json.dumps`). -/
def dumpVal : JVal → String
  | .jstr s => "\"" ++ s ++ "\""
  | .jnum n => toString n
  | .jbool b => if b then "true" else "false"
  | .jnull => "null"

/-- Ordering of parameter entries by key, as `sort_keys=True` sorts
dictionary items. -/
def keyLE (a b : String × JVal) : Prop := a.1 ≤ b.1

instance : DecidableRel keyLE := fun a b => by
  unfold keyLE; infer_instance

instance : IsTotal (String × JVal) keyLE :=
  ⟨fun a b => le_total a.1 b.1⟩

instance : IsTrans (String × JVal) keyLE :=
  ⟨fun _ _ _ hab hbc => le_trans hab hbc⟩

/-- Serialization of the key-sorted parameter object. -/
def dumpEntries : List (String × JVal) → String
  | [] => ""
  | [(k, v)] => "\"" ++ k ++ "\": " ++ dumpVal v
  | (k, v) :: rest => "\"" ++ k ++ "\": " ++ dumpVal v ++ ", " ++ dumpEntries rest

/-- Embedding of `CacheManager._hash_key` (src/agents/base.py lines
21-27) up to the md5 digest: the canonicalized, key-sorted JSON encoding
of `\x7b"endpoint": ..., "params": ...\x7d`.  The md5 hex digest is a
function of this string, so equal strings give equal cache keys. -/
def hashKeyStr (endpoint : String) (params : Params) : String :=
  "\x7b\"endpoint\": " ++ dumpVal (.jstr endpoint) ++ ", \"params\": \x7b" ++
  dumpEntries (params.insertionSort keyLE) ++ "\x7d\x7d"

/-- The `\x7b"data": ...\x7d` wrapper written by `CacheManager.set`. -/
structure CacheFile where
  data : Params
deriving Repr, DecidableEq

/-- The cache directory: one entry per hash key. -/
def CacheStore := List (String × CacheFile)

/-- Embedding of `CacheManager.set` (lines 46-56): write the wrapper
under the hash key. -/
def cacheSet (store : CacheStore) (endpoint : String) (params : Params)
    (data : Params) : CacheStore :=
  (hashKeyStr endpoint params, { data := data }) :: store

/-- Embedding of `CacheManager.get` (lines 29-44): look the hash key up
and return the wrapper's `"data"` field, `none` on a miss. -/
def cacheGet (store : CacheStore) (endpoint : String) (params : Params) :
    Option Params :=
  (store.lookup (hashKeyStr endpoint params)).map (fun f => f.data)

/-- Sorted-by-key association lists with duplicate-free keys are
determined by their entry multiset. -/
theorem sorted_nodupkeys_perm_eq :
    ∀ {l1 l2 : List (String × JVal)}, l1.Perm l2 →
      (l1.map Prod.fst).Nodup →
      List.Sorted keyLE l1 → List.Sorted keyLE l2 → l1 = l2 := by
  intro l1
  induction l1 with
  | nil =>
    intro l2 hperm _ _ _
    exact (hperm.nil_eq).symm ▸ rfl
  | cons a t1 ih =>
    intro l2 hperm hnd hs1 hs2
    rcases l2 with _ | ⟨b, t2⟩
    · exact absurd hperm.symm.nil_eq (by simp)
    · have hab : a = b := by
        have hamem : a ∈ b :: t2 := hperm.mem_iff.mp (List.mem_cons_self a t1)
        have hbmem : b ∈ a :: t1 := hperm.mem_iff.mpr (List.mem_cons_self b t2)
        rcases List.mem_cons.mp hamem with he | hat2
        · exact he
        · rcases List.mem_cons.mp hbmem with he | hbt1
          · exact he.symm
          · -- both strictly inside: keys equal, contradicting nodup keys
            have h1 : keyLE b a := (List.sorted_cons.mp hs2).1 a hat2
            have h2 : keyLE a b := (List.sorted_cons.mp hs1).1 b hbt1
            have hkey : a.1 = b.1 := le_antisymm h2 h1
            exfalso
            have hnd2 : a.1 ∉ t1.map Prod.fst ∧ (t1.map Prod.fst).Nodup := by
              rw [List.map_cons, List.nodup_cons] at hnd
              exact hnd
            apply hnd2.1
            rw [hkey]
            exact List.mem_map_of_mem Prod.fst hbt1
      subst hab
      have hperm2 := hperm.cons_inv
      have hnd2 : a.1 ∉ t1.map Prod.fst ∧ (t1.map Prod.fst).Nodup := by
        rw [List.map_cons, List.nodup_cons] at hnd
        exact hnd
      have heq := ih hperm2 hnd2.2
        (List.sorted_cons.mp hs1).2 (List.sorted_cons.mp hs2).2
      rw [heq]

/-- Claim C7: the cache key is invariant under the insertion order of
the parameter dictionary, and a `get` immediately after a `set` with the
same endpoint and parameters returns exactly the stored payload. -/
theorem c7_cache_key_deterministic_and_roundtrip :
    (∀ (endpoint : String) (p1 p2 : Params), p1.Perm p2 →
      ((p1.map Prod.fst).Nodup) →
      hashKeyStr endpoint p1 = hashKeyStr endpoint p2) ∧
    (∀ (store : CacheStore) (endpoint : String) (params data : Params),
      cacheGet (cacheSet store endpoint params data) endpoint params = some data) := by
  constructor
  · intro endpoint p1 p2 hperm hnd
    have hsorteq : p1.insertionSort keyLE = p2.insertionSort keyLE := by
      apply sorted_nodupkeys_perm_eq
      · exact ((List.perm_insertionSort keyLE p1).trans hperm).trans
          (List.perm_insertionSort keyLE p2).symm
      · exact ((List.perm_insertionSort keyLE p1).map Prod.fst).nodup_iff.mpr hnd
      · exact List.sorted_insertionSort keyLE p1
      · exact List.sorted_insertionSort keyLE p2
    unfold hashKeyStr
    rw [hsorteq]
  · intro store endpoint params data
    unfold cacheGet cacheSet
    simp [List.lookup]

/-- Witness instantiating claim C7: the same two-entry parameter
dictionary in both insertion orders yields one key, and a set/get round
trip on endpoint "exim" returns the stored payload. -/
theorem c7_cache_key_deterministic_and_roundtrip_witness :
    ([("candidate", JVal.jstr "metformin"), ("geography", JVal.jstr "US")] :
        Params).Perm
      [("geography", JVal.jstr "US"), ("candidate", JVal.jstr "metformin")] ∧
    (([("candidate", JVal.jstr "metformin"), ("geography", JVal.jstr "US")] :
        Params).map Prod.fst).Nodup ∧
    hashKeyStr "exim" [("candidate", JVal.jstr "metformin"),
        ("geography", JVal.jstr "US")] =
      hashKeyStr "exim" [("geography", JVal.jstr "US"),
        ("candidate", JVal.jstr "metformin")] ∧
    cacheGet (cacheSet [] "exim" [("candidate", JVal.jstr "metformin")]
        [("sourcing_signal", JVal.jstr "strong")])
      "exim" [("candidate", JVal.jstr "metformin")] =
      some [("sourcing_signal", JVal.jstr "strong")] :=
  ⟨by decide, by decide,
   c7_cache_key_deterministic_and_roundtrip.1 "exim" _ _ (by decide) (by decide),
   c7_cache_key_deterministic_and_roundtrip.2 [] "exim" _ _⟩

end Cache

/-! ## Run store (`src/backend/app/services/run_store.py`)

Claim C8.  `save_state` serializes the Pydantic `RouteAState` with
`json.dump(state.dict(), ..., default=str)`: datetime values become
`str(datetime)` (ISO format with a space separator, fractional seconds
omitted when the microsecond field is zero), every other field is plain
JSON.  `load_state` reads the JSON back, applies
`datetime.fromisoformat` to the `created_at` / `started_at` /
`completed_at` keys when they hold strings, and rebuilds `RouteAState`.
The model carries the scalar and datetime fields of `RouteAState`
(nested agent outputs serialize structurally and are restored verbatim
by the JSON layer).  The digit printing/parsing is implemented
concretely so the round trip is a theorem, not an assumption.
-/

namespace RunStore

/-- Python `datetime` at microsecond precision. -/
structure DateTime where
  year : Nat
  month : Nat
  day : Nat
  hour : Nat
  minute : Nat
  second : Nat
  microsecond : Nat
deriving Repr, DecidableEq

/-- Ranges Python's `datetime` constructor enforces. -/
def DateTime.Valid (dt : DateTime) : Prop :=
  1 ≤ dt.year ∧ dt.year ≤ 9999 ∧ 1 ≤ dt.month ∧ dt.month ≤ 12 ∧
  1 ≤ dt.day ∧ dt.day ≤ 31 ∧ dt.hour ≤ 23 ∧ dt.minute ≤ 59 ∧
  dt.second ≤ 59 ∧ dt.microsecond ≤ 999999

instance (dt : DateTime) : Decidable dt.Valid := by
  unfold DateTime.Valid; infer_instance

/-- Decimal digit characters of a natural number, most significant
first (empty for 0, as in `Nat.digits`). -/
def natDigits (n : Nat) : List Char :=
  ((Nat.digits 10 n).map Nat.digitChar).reverse

/-- Zero-padded fixed-width decimal print, as `datetime` formatting
emits. -/
def pad (w n : Nat) : List Char :=
  List.replicate (w - (natDigits n).length) '0' ++ natDigits n

/-- Decimal value of a digit-character list (the positional parse
`datetime.fromisoformat` performs). -/
def foldDigits (cs : List Char) : Nat :=
  cs.foldl (fun a c => 10 * a + (c.toNat - 48)) 0

/-- Fixed-width number field reader: `w` digit characters, then the
rest. -/
def readNum (w : Nat) (cs : List Char) : Option (Nat × List Char) :=
  if (cs.take w).length = w ∧ (cs.take w).all Char.isDigit then
    some (foldDigits (cs.take w), cs.drop w)
  else none

/-- Single expected separator character. -/
def readChar (c : Char) : List Char → Option (List Char)
  | [] => none
  | x :: rest => if x = c then some rest else none

/-- Model of CPython `str(datetime)`: `YYYY-MM-DD HH:MM:SS` with
`.ffffff` appended only when the microsecond field is nonzero. -/
def pyStrChars (dt : DateTime) : List Char :=
  pad 4 dt.year ++ '-' ::
  (pad 2 dt.month ++ '-' ::
  (pad 2 dt.day ++ ' ' ::
  (pad 2 dt.hour ++ ':' ::
  (pad 2 dt.minute ++ ':' ::
  (pad 2 dt.second ++
  (if dt.microsecond = 0 then [] else '.' :: pad 6 dt.microsecond))))))

/-- Model of CPython `str(datetime)` on `String`. -/
def pyStrDateTime (dt : DateTime) : String := ⟨pyStrChars dt⟩

/-- Model of `datetime.fromisoformat` on the formats `str(datetime)`
produces (positional fixed-width parse). -/
def fromIsoChars (cs : List Char) : Option DateTime :=
  (readNum 4 cs).bind fun py =>
  (readChar '-' py.2).bind fun r2 =>
  (readNum 2 r2).bind fun pmo =>
  (readChar '-' pmo.2).bind fun r4 =>
  (readNum 2 r4).bind fun pd =>
  (readChar ' ' pd.2).bind fun r6 =>
  (readNum 2 r6).bind fun ph =>
  (readChar ':' ph.2).bind fun r8 =>
  (readNum 2 r8).bind fun pmi =>
  (readChar ':' pmi.2).bind fun r10 =>
  (readNum 2 r10).bind fun ps =>
  match ps.2 with
  | [] => some ⟨py.1, pmo.1, pd.1, ph.1, pmi.1, ps.1, 0⟩
  | '.' :: r12 =>
    (readNum 6 r12).bind fun pus =>
    match pus.2 with
    | [] => some ⟨py.1, pmo.1, pd.1, ph.1, pmi.1, ps.1, pus.1⟩
    | _ => none
  | _ => none

/-- Model of `datetime.fromisoformat` on `String`. -/
def fromIso (s : String) : Option DateTime := fromIsoChars s.data

end RunStore

namespace RunStore

theorem digits_len_le_of_lt_pow {n w : Nat} (h : n < 10 ^ w) :
    (Nat.digits 10 n).length ≤ w := by
  rcases Nat.eq_zero_or_pos n with rfl | hn
  · simp
  · have h1 : 10 ^ (Nat.digits 10 n).length ≤ 10 * n :=
      Nat.base_pow_length_digits_le 10 n (by norm_num) (by omega)
    have h2 : 10 * n < 10 ^ (w + 1) := by
      rw [pow_succ]
      omega
    have h3 : (10 : Nat) ^ (Nat.digits 10 n).length < 10 ^ (w + 1) := lt_of_le_of_lt h1 h2
    have h4 := (Nat.pow_lt_pow_iff_right (by norm_num : 1 < 10)).mp h3
    omega

theorem natDigits_length_le {n w : Nat} (h : n < 10 ^ w) :
    (natDigits n).length ≤ w := by
  unfold natDigits
  rw [List.length_reverse, List.length_map]
  exact digits_len_le_of_lt_pow h

theorem pad_length {w n : Nat} (h : n < 10 ^ w) : (pad w n).length = w := by
  unfold pad
  rw [List.length_append, List.length_replicate]
  have := natDigits_length_le h
  omega

theorem digitChar_isDigit {d : Nat} (h : d < 10) :
    (Nat.digitChar d).isDigit = true := by
  interval_cases d <;> decide

theorem digitChar_toNat {d : Nat} (h : d < 10) :
    (Nat.digitChar d).toNat - 48 = d := by
  interval_cases d <;> decide

theorem pad_all_digits (w n : Nat) : (pad w n).all Char.isDigit = true := by
  unfold pad natDigits
  rw [List.all_append, Bool.and_eq_true]
  constructor
  · rw [List.all_eq_true]
    intro x hx
    rw [List.eq_of_mem_replicate hx]
    decide
  · rw [List.all_reverse, List.all_eq_true]
    intro x hx
    rw [List.mem_map] at hx
    obtain ⟨d, hd, rfl⟩ := hx
    exact digitChar_isDigit (Nat.digits_lt_base (by norm_num) hd)

theorem foldl_digits_zero (l : List Char) :
    List.foldl (fun a c => 10 * a + (c.toNat - 48)) 0 ('0' :: l) =
    List.foldl (fun a c => 10 * a + (c.toNat - 48)) 0 l := by
  rw [List.foldl_cons]
  have h0 : 10 * 0 + (('0' : Char).toNat - 48) = 0 := by decide
  rw [h0]

theorem foldDigits_replicate_zero (k : Nat) (l : List Char) :
    foldDigits (List.replicate k '0' ++ l) = foldDigits l := by
  induction k with
  | zero => rw [List.replicate_zero, List.nil_append]
  | succ k ih =>
    rw [List.replicate_succ, List.cons_append]
    unfold foldDigits at ih ⊢
    rw [foldl_digits_zero]
    exact ih

theorem foldr_digitChar_eq_ofDigits (l : List Nat) (hl : ∀ d ∈ l, d < 10) :
    List.foldr (fun c a => 10 * a + (c.toNat - 48)) 0 (l.map Nat.digitChar) =
      Nat.ofDigits 10 l := by
  induction l with
  | nil => simp [Nat.ofDigits_nil]
  | cons d t ih =>
    rw [List.map_cons, List.foldr_cons, Nat.ofDigits_cons,
      ih (fun x hx => hl x (List.mem_cons_of_mem d hx)),
      digitChar_toNat (hl d (List.mem_cons_self d t))]
    ring

theorem foldDigits_natDigits (n : Nat) : foldDigits (natDigits n) = n := by
  unfold foldDigits natDigits
  rw [List.foldl_reverse]
  have hfold := foldr_digitChar_eq_ofDigits (Nat.digits 10 n)
    (fun d hd => Nat.digits_lt_base (by norm_num) hd)
  calc List.foldr (fun x y => 10 * y + (x.toNat - 48)) 0
        ((Nat.digits 10 n).map Nat.digitChar)
      = Nat.ofDigits 10 (Nat.digits 10 n) := hfold
    _ = n := Nat.ofDigits_digits 10 n

theorem foldDigits_pad {w n : Nat} (_h : n < 10 ^ w) : foldDigits (pad w n) = n := by
  unfold pad
  rw [foldDigits_replicate_zero, foldDigits_natDigits]

theorem readNum_pad {w n : Nat} (h : n < 10 ^ w) (rest : List Char) :
    readNum w (pad w n ++ rest) = some (n, rest) := by
  unfold readNum
  have hlen := pad_length h
  have htake : (pad w n ++ rest).take w = pad w n := by
    have ht := List.take_left (pad w n) rest
    rwa [hlen] at ht
  have hdrop : (pad w n ++ rest).drop w = rest := by
    have hd := List.drop_left (pad w n) rest
    rwa [hlen] at hd
  rw [htake, hdrop, if_pos ⟨hlen, pad_all_digits w n⟩, foldDigits_pad h]

theorem readNum_pad_exact {w n : Nat} (h : n < 10 ^ w) :
    readNum w (pad w n) = some (n, []) := by
  have hr := readNum_pad h []
  rwa [List.append_nil] at hr

theorem readChar_cons (c : Char) (l : List Char) : readChar c (c :: l) = some l := by
  simp [readChar]

set_option maxHeartbeats 1600000 in
/-- Round trip of the datetime normalization: `fromisoformat` restores
exactly the datetime that `str()` printed. -/
theorem fromIso_pyStr {dt : DateTime} (hv : dt.Valid) :
    fromIso (pyStrDateTime dt) = some dt := by
  obtain ⟨y, mo, d, h, mi, s, us⟩ := dt
  unfold DateTime.Valid at hv
  dsimp only at hv
  obtain ⟨h1, h2, h3, h4, h5, h6, h7, h8, h9, h10⟩ := hv
  have hy : y < 10 ^ 4 := by
    have he : (10 : Nat) ^ 4 = 10000 := by norm_num
    omega
  have hmo : mo < 10 ^ 2 := by
    have he : (10 : Nat) ^ 2 = 100 := by norm_num
    omega
  have hd2 : d < 10 ^ 2 := by
    have he : (10 : Nat) ^ 2 = 100 := by norm_num
    omega
  have hh : h < 10 ^ 2 := by
    have he : (10 : Nat) ^ 2 = 100 := by norm_num
    omega
  have hmi : mi < 10 ^ 2 := by
    have he : (10 : Nat) ^ 2 = 100 := by norm_num
    omega
  have hs2 : s < 10 ^ 2 := by
    have he : (10 : Nat) ^ 2 = 100 := by norm_num
    omega
  have hus6 : us < 10 ^ 6 := by
    have he : (10 : Nat) ^ 6 = 1000000 := by norm_num
    omega
  unfold fromIso pyStrDateTime fromIsoChars pyStrChars
  by_cases hus : us = 0
  · subst hus
    rw [if_pos rfl, List.append_nil]
    simp only [readNum_pad hy, readNum_pad hmo, readNum_pad hd2, readNum_pad hh,
      readNum_pad hmi, readNum_pad_exact hs2, readChar_cons, Option.some_bind]
  · rw [if_neg hus]
    simp only [readNum_pad hy, readNum_pad hmo, readNum_pad hd2, readNum_pad hh,
      readNum_pad hmi, readNum_pad hs2, readNum_pad_exact hus6, readChar_cons,
      Option.some_bind]

end RunStore

namespace RunStore

/-- Scalar and datetime fields of the Pydantic `RouteAState`
(src/backend/app/schemas.py lines 259-294) that `save_state` /
`load_state` serialize; the nested agent-output models serialize
structurally through the JSON layer and are restored verbatim. -/
structure RouteAState where
  runId : String
  indication : String
  geography : String
  minPhase : Option Int
  oralOnly : Bool
  excludeBiologics : Bool
  strictFto : Bool
  diseaseId : Option String
  diseaseSynonyms : List String
  createdAt : DateTime
  startedAt : Option DateTime
  completedAt : Option DateTime
  status : Orchestrator.RunStatus
  errorMessage : Option String
  reportPath : Option String
  reportUrl : Option String
deriving Repr, DecidableEq

/-- Serialized value of a `RunStatus` (the str-enum's value, which is
what `json.dump` writes for a `str` subclass). -/
def statusToStr : Orchestrator.RunStatus → String
  | .queued => "queued"
  | .running => "running"
  | .succeeded => "succeeded"
  | .failed => "failed"

/-- Pydantic enum validation when `RouteAState` is rebuilt from JSON. -/
def statusOfStr (s : String) : Option Orchestrator.RunStatus :=
  if s = "queued" then some .queued
  else if s = "running" then some .running
  else if s = "succeeded" then some .succeeded
  else if s = "failed" then some .failed
  else none

/-- Content of `state.json` as written by `save_state`: plain JSON
fields, with datetimes stringified by `default=str` (`null` stays
`null`). -/
structure SavedState where
  runId : String
  indication : String
  geography : String
  minPhase : Option Int
  oralOnly : Bool
  excludeBiologics : Bool
  strictFto : Bool
  diseaseId : Option String
  diseaseSynonyms : List String
  createdAt : String
  startedAt : Option String
  completedAt : Option String
  status : String
  errorMessage : Option String
  reportPath : Option String
  reportUrl : Option String
deriving Repr, DecidableEq

/-- Embedding of the serialization performed by `RunStore.save_state`
(src/backend/app/services/run_store.py lines 81-89):
`json.dump(state.dict(), f, default=str)`. -/
def serializeState (s : RouteAState) : SavedState :=
  { runId := s.runId
    indication := s.indication
    geography := s.geography
    minPhase := s.minPhase
    oralOnly := s.oralOnly
    excludeBiologics := s.excludeBiologics
    strictFto := s.strictFto
    diseaseId := s.diseaseId
    diseaseSynonyms := s.diseaseSynonyms
    createdAt := pyStrDateTime s.createdAt
    startedAt := s.startedAt.map pyStrDateTime
    completedAt := s.completedAt.map pyStrDateTime
    status := statusToStr s.status
    errorMessage := s.errorMessage
    reportPath := s.reportPath
    reportUrl := s.reportUrl }

/-- Datetime-key normalization of `load_state` (lines 103-105): a string
value is parsed with `datetime.fromisoformat`, a JSON `null` stays
absent. -/
def parseOptDt (o : Option String) : Option (Option DateTime) :=
  match o with
  | none => some none
  | some str => (fromIso str).map some

/-- Embedding of the deserialization performed by `RunStore.load_state`
(src/backend/app/services/run_store.py lines 91-107):
`datetime.fromisoformat` on the string-valued `created_at` /
`started_at` / `completed_at` keys, then the Pydantic
`RouteAState(**data)` rebuild (`none` models a raised parse error). -/
def parseState (f : SavedState) : Option RouteAState :=
  (fromIso f.createdAt).bind fun createdAt =>
  (parseOptDt f.startedAt).bind fun startedAt =>
  (parseOptDt f.completedAt).bind fun completedAt =>
  (statusOfStr f.status).map fun status =>
  { runId := f.runId
    indication := f.indication
    geography := f.geography
    minPhase := f.minPhase
    oralOnly := f.oralOnly
    excludeBiologics := f.excludeBiologics
    strictFto := f.strictFto
    diseaseId := f.diseaseId
    diseaseSynonyms := f.diseaseSynonyms
    createdAt := createdAt
    startedAt := startedAt
    completedAt := completedAt
    status := status
    errorMessage := f.errorMessage
    reportPath := f.reportPath
    reportUrl := f.reportUrl }

/-- The run-store data directory: one `state.json` per run id. -/
def StateStore := List (String × SavedState)

/-- Embedding of `RunStore.save_state`: write `state.json` under the
run's directory. -/
def saveState (store : StateStore) (runId : String) (s : RouteAState) : StateStore :=
  (runId, serializeState s) :: store

/-- Embedding of `RunStore.load_state`: read `state.json` if present and
rebuild the state. -/
def loadState (store : StateStore) (runId : String) : Option RouteAState :=
  (store.lookup runId).bind parseState

theorem statusOfStr_statusToStr (st : Orchestrator.RunStatus) :
    statusOfStr (statusToStr st) = some st := by
  cases st <;> rfl

theorem parseOptDt_map {o : Option DateTime}
    (hv : ∀ dt, o = some dt → dt.Valid) :
    parseOptDt (o.map pyStrDateTime) = some o := by
  rcases o with _ | dt
  · rfl
  · unfold parseOptDt
    rw [Option.map_some']
    dsimp only
    rw [fromIso_pyStr (hv dt rfl), Option.map_some']

/-- Claim C8: `load_state` after `save_state` restores the state
exactly; the datetime fields pass through their ISO-string normalization
and are restored as datetimes equal to the originals. -/
theorem c8_state_roundtrip (store : StateStore) (runId : String) (s : RouteAState)
    (hc : s.createdAt.Valid)
    (hs : ∀ dt, s.startedAt = some dt → dt.Valid)
    (hcp : ∀ dt, s.completedAt = some dt → dt.Valid) :
    loadState (saveState store runId s) runId = some s := by
  unfold loadState saveState
  have hlook : ((runId, serializeState s) :: store).lookup runId =
      some (serializeState s) := by
    simp [List.lookup]
  rw [hlook, Option.some_bind]
  unfold parseState serializeState
  dsimp only
  rw [fromIso_pyStr hc, Option.some_bind, parseOptDt_map hs, Option.some_bind,
    parseOptDt_map hcp, Option.some_bind, statusOfStr_statusToStr, Option.map_some']

end RunStore

namespace RunStore

/-- Concrete run state for the C8 witness: nonzero microseconds on
`created_at` (exercising the fractional-seconds format), a set
`started_at` and an unset `completed_at`. -/
def c8WitnessState : RouteAState :=
  { runId := "run-001", indication := "asthma", geography := "US",
    minPhase := some 2, oralOnly := false, excludeBiologics := false,
    strictFto := true, diseaseId := some "EFO_0000270",
    diseaseSynonyms := ["bronchial asthma"],
    createdAt := ⟨2025, 10, 12, 14, 30, 5, 123456⟩,
    startedAt := some ⟨2025, 10, 12, 14, 30, 6, 0⟩,
    completedAt := none,
    status := .running, errorMessage := none,
    reportPath := none, reportUrl := some "/runs/run-001/report" }

/-- Witness instantiating claim C8 at a concrete state and store. -/
theorem c8_state_roundtrip_witness :
    c8WitnessState.createdAt.Valid ∧
    loadState (saveState [] "run-001" c8WitnessState) "run-001" =
      some c8WitnessState :=
  ⟨by decide,
   c8_state_roundtrip [] "run-001" c8WitnessState (by decide)
     (fun dt h => by
       injection h with he
       rw [← he]
       decide)
     (fun dt h => by cases h)⟩

end RunStore
